import Mathlib

/-!
# Outline client configuration

A shallow embedding of the package `client/go/outline/config`:

* `parseFirstSupported`, from `config_first_supported.go`;
* the Shadowsocks configuration parser, the registry of type parsers, the
  default transport provider and `ParseConfigYAML`, which
  `shadowsocks_test.go` and `module_test.go` exercise.  Their source files
  are not among the sources, so they are modelled from the specification;
  each such definition says so.

Go values are embedded as follows.

* An `error` interface value is `Option GoError`; `none` is `nil`.
* A Go function returning `(Output, error)` returns the pair
  `Output × Option GoError`; both components are always present.
* A parse function may have effects, so it threads a program state `σ`
  explicitly.  `recordCalls` turns a function of `(ctx, option)` into a parse
  function whose state is the log of the calls made so far.
* `context.Context`, the element type `any` of `Options` and the type
  `map[string]any` of the configuration map are type parameters.
-/

set_option autoImplicit false

namespace Config

/-! ## Go errors -/

/-- Go error values, as far as `errors.Is(·, errors.ErrUnsupported)` and
`Error()` can tell them apart. -/
inductive GoError where
  /-- The sentinel `errors.ErrUnsupported`. -/
  | errUnsupported : GoError
  /-- The value of a call `errors.New(text)`: a fresh pointer, so it is never
  identical to a sentinel, and it has no `Unwrap` method. -/
  | errorString (text : String) : GoError
  /-- The value of `fmt.Errorf` with one `%w` verb: `&wrapError{msg, err}`,
  whose `Unwrap` method returns `err`. -/
  | wrapError (msg : String) (err : GoError) : GoError
  /-- An error of any other dynamic type, with the text of its `Error` method;
  `isUnsupported` is the value of `errors.Is(e, errors.ErrUnsupported)` on it. -/
  | other (text : String) (isUnsupported : Bool) : GoError
  deriving DecidableEq, Repr

namespace GoError

/-- The `Error()` method. -/
def Error : GoError → String
  | errUnsupported => "unsupported operation"
  | errorString text => text
  | wrapError msg _ => msg
  | other text _ => text

/-- The `Unwrap() error` method, where the dynamic type has one. -/
def Unwrap : GoError → Option GoError
  | wrapError _ err => some err
  | _ => none

/-- The loop of `errors.is` for the target `errors.ErrUnsupported`: the error
is the target, or its `Is` method accepts the target, or the error it unwraps
to matches. -/
def isErrUnsupported : GoError → Bool
  | errUnsupported => true
  | errorString _ => false
  | wrapError _ err => isErrUnsupported err
  | other _ b => b

end GoError

/-- The call `errors.New(text)`. -/
def errorsNew (text : String) : GoError := GoError.errorString text

/-- The call `fmt.Errorf(format ++ "%w", err)` for a format whose only verb is
the trailing `%w` and a non-nil `err`: the message is the format's text
followed by `err.Error()`, and the result unwraps to `err`. -/
def fmtErrorfW (text : String) (err : GoError) : GoError :=
  GoError.wrapError (text ++ err.Error) err

/-- The call `errors.Is(err, errors.ErrUnsupported)`; a nil error matches no
non-nil target. -/
def errorsIsErrUnsupported : Option GoError → Bool
  | none => false
  | some e => e.isErrUnsupported

/-! ## `config_first_supported.go` -/

/-- The struct `FirstSupportedConfig`. -/
structure FirstSupportedConfig (Any : Type) where
  Options : List Any
  deriving Repr

/-- The type `ParseFunc[Output]`, `func(ctx, input) (Output, error)`, with the
program state a call may read and change passed explicitly. -/
abbrev ParseFunc (Ctx Any σ Output : Type) : Type :=
  Ctx → Any → σ → (Output × Option GoError) × σ

/-- The type of the helper `mapToAny(in, out) error` at `out` of type
`*FirstSupportedConfig`: from the map and the value `out` points to, the value
it points to afterwards and the error. -/
abbrev MapToAny (ConfigMap Any : Type) : Type :=
  ConfigMap → FirstSupportedConfig Any → FirstSupportedConfig Any × Option GoError

section FirstSupported

variable {Ctx Any ConfigMap σ Output : Type}

/-- The loop `for _, ec := range config.Options` of `parseFirstSupported`
(lines 38-44).  The result is `some` of the returned pair when the body
returns, and `none` when the range is exhausted. -/
def parseFirstSupported.rangeOptions (ctx : Ctx) (parseE : ParseFunc Ctx Any σ Output) :
    List Any → σ → Option (Output × Option GoError) × σ
  | [], s => (none, s)
  | ec :: rest, s =>
    let r := parseE ctx ec s
    if errorsIsErrUnsupported r.1.2 then
      parseFirstSupported.rangeOptions ctx parseE rest r.2
    else
      (some (r.1.1, r.1.2), r.2)

/-- The function `parseFirstSupported[Output]`.  The helper `mapToAny` is a
parameter; `default` is the zero value of `Output`. -/
def parseFirstSupported [Inhabited Output] (mapToAny : MapToAny ConfigMap Any)
    (ctx : Ctx) (configMap : ConfigMap) (parseE : ParseFunc Ctx Any σ Output)
    (s : σ) : (Output × Option GoError) × σ :=
  let zero : Output := default
  let config : FirstSupportedConfig Any := { Options := [] }
  match mapToAny configMap config with
  | (_, some err) => ((zero, some (fmtErrorfW "invalid config format: " err)), s)
  | (config, none) =>
    if config.Options.length == 0 then
      ((zero, some (errorsNew "empty list of options")), s)
    else
      match parseFirstSupported.rangeOptions ctx parseE config.Options s with
      | (some r, s') => (r, s')
      | (none, s') =>
        ((zero, some (fmtErrorfW "no suported option found: " GoError.errUnsupported)), s')

/-- A parse function that returns what `f` returns and appends each call's
arguments to the log of calls, which is its state. -/
def recordCalls (f : Ctx → Any → Output × Option GoError) :
    ParseFunc Ctx Any (List (Ctx × Any)) Output :=
  fun ctx ec log => (f ctx ec, log ++ [(ctx, ec)])

/-- What a call of `f` on an option makes the loop do: `some` of the pair the
loop returns (line 43), or `none` when the loop continues (line 41). -/
def loopReturn (f : Ctx → Any → Output × Option GoError) (ctx : Ctx) (ec : Any) :
    Option (Output × Option GoError) :=
  if errorsIsErrUnsupported (f ctx ec).2 then none else some (f ctx ec)

end FirstSupported

/-! ## A concrete instance

Options are `$type` discriminators, the configuration map is the list of its
options, and the parse function dispatches on the discriminator the way a
registry of type parsers does. -/

/-- A decoder that succeeds with the map's list of options, and fails on a map
that has no `options` entry. -/
def demoMapToAny : MapToAny (Option (List String)) String
  | some opts, _ => ({ Options := opts }, none)
  | none, config => (config, some (errorsNew "options: field is missing"))

/-- A registry with the parsers `ss` (succeeds) and `bad` (recognises its
configuration and rejects it); every other discriminator is unsupported. -/
def demoParse : Unit → String → String × Option GoError
  | _, "ss" => ("shadowsocks", none)
  | _, "bad" => ("", some (errorsNew "invalid config"))
  | _, _ => ("", some (fmtErrorfW "config type not registered: " GoError.errUnsupported))

/-! ## Go strings

A Go string is a sequence of bytes.  It is embedded as a `String` whose
characters are the bytes (code points below 256); the text functions below
work on its list of characters. -/

/-- The bytes of a list of characters. -/
def bytesOf (cs : List Char) : List Nat := cs.map Char.toNat

/-- The characters of a list of bytes. -/
def charsOf (bs : List Nat) : List Char := bs.map Char.ofNat

/-- The call `strings.Cut(s, sep)` for a separator of one byte: the text before
and after the first `sep`, when there is one. -/
def cutFirst (sep : Char) : List Char → Option (List Char × List Char)
  | [] => none
  | c :: cs =>
    if c = sep then some ([], cs)
    else
      match cutFirst sep cs with
      | some (before, after) => some (c :: before, after)
      | none => none

/-- The text before and after the last `sep`, when there is one. -/
def cutLast (sep : Char) (cs : List Char) : Option (List Char × List Char) :=
  match cutFirst sep cs.reverse with
  | some (after, before) => some (before.reverse, after.reverse)
  | none => none

/-- The text up to the first `sep`, and the text after it when there is one. -/
def upTo (sep : Char) (cs : List Char) : List Char × Option (List Char) :=
  match cutFirst sep cs with
  | some (before, after) => (before, some after)
  | none => (cs, none)

/-- The pieces of a text between the occurrences of `sep`. -/
def splitOn (sep : Char) : List Char → List (List Char)
  | [] => [[]]
  | c :: cs =>
    if c = sep then [] :: splitOn sep cs
    else
      match splitOn sep cs with
      | [] => [[c]]
      | p :: ps => (c :: p) :: ps

/-! ## Base64 (RFC 4648), as `encoding/base64` implements it -/

/-- The alphabet of `base64.StdEncoding`. -/
def stdAlphabet : List Char :=
  "ABCDEFGHIJKLMNOPQRSTUVWXYZabcdefghijklmnopqrstuvwxyz0123456789+/".toList

/-- The alphabet of `base64.URLEncoding`. -/
def urlAlphabet : List Char :=
  "ABCDEFGHIJKLMNOPQRSTUVWXYZabcdefghijklmnopqrstuvwxyz0123456789-_".toList

/-- The two encodings the tests use: `base64.URLEncoding.WithPadding(base64.NoPadding)`
and `base64.StdEncoding`. -/
inductive Base64Encoding where
  | urlNoPadding : Base64Encoding
  | std : Base64Encoding
  deriving DecidableEq, Repr

namespace Base64Encoding

/-- The alphabet of the encoding. -/
def alphabet : Base64Encoding → List Char
  | urlNoPadding => urlAlphabet
  | std => stdAlphabet

/-- Whether the encoding pads its output with `=` to a multiple of four. -/
def padded : Base64Encoding → Bool
  | urlNoPadding => false
  | std => true

end Base64Encoding

/-- The 6-bit groups of a sequence of bytes, three bytes to four groups; a last
group of one or two bytes gives two or three groups, filled with zero bits. -/
def encodeSextets : List Nat → List Nat
  | [] => []
  | [a] => [a / 4, a % 4 * 16]
  | [a, b] => [a / 4, a % 4 * 16 + b / 16, b % 16 * 4]
  | a :: b :: c :: rest =>
    a / 4 :: (a % 4 * 16 + b / 16) :: (b % 16 * 4 + c / 64) :: c % 64 :: encodeSextets rest

/-- The bytes of a sequence of 6-bit groups, four groups to three bytes; a
single last group is an error, and the bits that fill a last group of two or
three are dropped. -/
def decodeSextets : List Nat → Option (List Nat)
  | [] => some []
  | [_] => none
  | [s1, s2] => some [s1 * 4 + s2 / 16]
  | [s1, s2, s3] => some [s1 * 4 + s2 / 16, s2 % 16 * 16 + s3 / 4]
  | s1 :: s2 :: s3 :: s4 :: rest =>
    match decodeSextets rest with
    | some bs =>
      some ((s1 * 4 + s2 / 16) :: (s2 % 16 * 16 + s3 / 4) :: (s3 % 4 * 64 + s4) :: bs)
    | none => none

/-- The character of a 6-bit group. -/
def sextetChar (alphabet : List Char) (s : Nat) : Char := alphabet.getD s '='

/-- The 6-bit group of a character; a character outside the alphabet has none. -/
def charSextet (alphabet : List Char) (c : Char) : Option Nat :=
  if alphabet.indexOf c < alphabet.length then some (alphabet.indexOf c) else none

/-- The 6-bit groups of a text; one character outside the alphabet and the text
has none. -/
def charSextets (alphabet : List Char) : List Char → Option (List Nat)
  | [] => some []
  | c :: cs =>
    match charSextet alphabet c, charSextets alphabet cs with
    | some s, some ss => some (s :: ss)
    | _, _ => none

/-- The padding after the encoding of `n` bytes. -/
def base64Padding (n : Nat) : List Char := List.replicate ((3 - n % 3) % 3) '='

/-- The method `EncodeToString`. -/
def base64Encode (enc : Base64Encoding) (bs : List Nat) : List Char :=
  (encodeSextets bs).map (sextetChar enc.alphabet) ++
    (if enc.padded then base64Padding bs.length else [])

/-- The text without its last character, when that is `=`. -/
def stripOnePad (cs : List Char) : List Char :=
  if cs.getLast? = some '=' then cs.dropLast else cs

/-- The text without its carriage returns and line feeds, the characters that
`DecodeString` skips wherever they stand. -/
def withoutLineBreaks (cs : List Char) : List Char :=
  cs.filter (fun c => c != '\r' && c != '\n')

/-- The decoding of a text once its line breaks are skipped: with padding the
length is a multiple of four and at most two `=` end the text; every other
character is of the alphabet. -/
def decodeQuanta (enc : Base64Encoding) (cs : List Char) : Option (List Nat) :=
  if enc.padded then
    if cs.length % 4 = 0 then
      (charSextets enc.alphabet (stripOnePad (stripOnePad cs))).bind decodeSextets
    else none
  else
    (charSextets enc.alphabet cs).bind decodeSextets

/-- The method `DecodeString`: carriage returns and line feeds are ignored,
and what remains is decoded. -/
def base64Decode (enc : Base64Encoding) (cs : List Char) : Option (List Nat) :=
  decodeQuanta enc (withoutLineBreaks cs)

/-! ## Percent-encoding (RFC 3986) -/

/-- The unreserved characters, which percent-encoding leaves as they are. -/
def isUnreserved (c : Char) : Bool :=
  c.isAlphanum || c == '-' || c == '.' || c == '_' || c == '~'

/-- The hexadecimal digit of a number below 16. -/
def hexDigit (n : Nat) : Char := "0123456789ABCDEF".toList.getD n '0'

/-- The value of a hexadecimal digit, of either case. -/
def hexValue (c : Char) : Option Nat :=
  if c.isDigit then some (c.toNat - 48)
  else if 'A' ≤ c ∧ c ≤ 'F' then some (c.toNat - 55)
  else if 'a' ≤ c ∧ c ≤ 'f' then some (c.toNat - 87)
  else none

/-- The percent-encoding of a text: every byte that is not unreserved becomes
`%` and its two hexadecimal digits (`HTTP/1.1 ` becomes `HTTP%2F1.1%20`). -/
def percentEncode : List Char → List Char
  | [] => []
  | c :: cs =>
    if isUnreserved c then c :: percentEncode cs
    else '%' :: hexDigit (c.toNat / 16) :: hexDigit (c.toNat % 16) :: percentEncode cs

/-- The decoding of a percent-encoded text; a `%` that two hexadecimal digits
do not follow is an error. -/
def percentDecode : List Char → Option (List Char)
  | [] => some []
  | c :: cs =>
    if c = '%' then
      match cs with
      | h1 :: h2 :: rest =>
        match hexValue h1, hexValue h2, percentDecode rest with
        | some a, some b, some r => some (Char.ofNat (16 * a + b) :: r)
        | _, _, _ => none
      | _ => none
    else
      match percentDecode cs with
      | some r => some (c :: r)
      | none => none

/-! ## The URL form of a configuration (spec §4.1, §6) -/

/-- Modelled from the spec: the parts of a URL-form configuration,
`scheme://[userinfo@]host:port[/?query][#fragment]` (§4.1); the URL normalizer
is not among the sources.  An absent part is `none`. -/
structure URL where
  Scheme : List Char
  User : Option (List Char)
  Host : List Char
  Path : Option (List Char)
  RawQuery : Option (List Char)
  Fragment : Option (List Char)
  deriving DecidableEq, Repr

/-- Modelled from the spec: the split of a URL-form configuration into the
parts of the grammar of §4.1, read as RFC 3986 reads it; the URL normalizer is
not among the sources.  The fragment starts at the first `#`, the query at the
first `?` before it, the path at the first `/` before that, and the user
information ends at the last `@` of what remains. -/
def parseURL (u : List Char) : Option URL :=
  match cutFirst ':' u with
  | none => none
  | some (scheme, rest) =>
    match rest with
    | '/' :: '/' :: rest =>
      let (rest, fragment) := upTo '#' rest
      let (rest, query) := upTo '?' rest
      let (authority, path) := upTo '/' rest
      match cutLast '@' authority with
      | some (user, host) =>
        some { Scheme := scheme, User := some user, Host := host, Path := path,
               RawQuery := query, Fragment := fragment }
      | none =>
        some { Scheme := scheme, User := none, Host := authority, Path := path,
               RawQuery := query, Fragment := fragment }
    | _ => none

/-- Modelled from the spec: the raw value of the first query parameter called
`name` among the parameters `key=value` of a query (§4.1, rule 3); the URL
normalizer is not among the sources. -/
def queryGet (name : List Char) : List (List Char) → Option (List Char)
  | [] => none
  | p :: ps =>
    if (upTo '=' p).1 = name then some ((upTo '=' p).2.getD []) else queryGet name ps

/-- Modelled from the spec: the field `prefix` of a URL-form configuration,
"query parameters (e.g. `prefix=`) are percent-decoded and merged as named
fields" (§4.1, rule 3); the URL normalizer is not among the sources.  A URL
without the parameter has the empty field; `none` is a parameter that does not
decode. -/
def queryPrefix : Option (List Char) → Option (List Char)
  | none => some []
  | some q =>
    match queryGet "prefix".toList (splitOn '&' q) with
    | none => some []
    | some raw => percentDecode raw

/-- Modelled from the spec: the decoding of a user-information token, "MUST
try, in order, URL-safe-no-padding base64, then standard base64, before
concluding the token is not base64 and treating it as already-decoded" (§6);
the URL normalizer is not among the sources.  The test `User Info No Encoding`
(lines 58-65) has such a token that is not base64. -/
def decodeToken (cs : List Char) : List Char :=
  match base64Decode Base64Encoding.urlNoPadding cs with
  | some bs => charsOf bs
  | none =>
    match base64Decode Base64Encoding.std cs with
    | some bs => charsOf bs
    | none => cs

/-- Modelled from the spec: the decoding of the single token of the
fully-encoded form, URL-safe-no-padding base64 and then standard base64
(§4.1, rule 2; §6); the URL normalizer is not among the sources.  A token that
is not base64 has no decoding. -/
def decodeSingleToken (cs : List Char) : Option (List Char) :=
  match base64Decode Base64Encoding.urlNoPadding cs with
  | some bs => some (charsOf bs)
  | none =>
    match base64Decode Base64Encoding.std cs with
    | some bs => some (charsOf bs)
    | none => none

/-! ## Configuration nodes and the Shadowsocks configuration (spec §3, §4.4) -/

/-- Modelled from the spec: the type `ConfigNode`, "an opaque tree-shaped
value (maps, sequences, scalars)" (§3); its declaration is not among the
sources. -/
inductive ConfigNode where
  | str (value : String) : ConfigNode
  | int (value : Int) : ConfigNode
  | bool (value : Bool) : ConfigNode
  | seq (items : List ConfigNode) : ConfigNode
  | map (fields : List (String × ConfigNode)) : ConfigNode

/-- Modelled from the spec: the struct `ShadowsocksConfig`,
`{ Endpoint, Cipher, Secret, Prefix }` (§3), with the fields the tests read;
shadowsocks.go is not among the sources. -/
structure ShadowsocksConfig where
  Endpoint : String
  Cipher : String
  Secret : String
  Prefix : String
  deriving DecidableEq, Repr

/-- Modelled from the spec: the user information `cipher:secret`, the host and
the query of a URL as a `ShadowsocksConfig` (§4.1: "a Config Node with fields
`endpoint`, `cipher`, `secret`, and any decoded query fields");
shadowsocks.go is not among the sources. -/
def shadowsocksConfigOf (cipherInfo host : List Char) (query : Option (List Char)) :
    Except GoError ShadowsocksConfig :=
  match cutFirst ':' cipherInfo with
  | none => Except.error (errorsNew "invalid cipher info: no ':' separator")
  | some (cipher, secret) =>
    match queryPrefix query with
    | none => Except.error (errorsNew "invalid query: malformed percent-encoding")
    | some pfx =>
      Except.ok { Endpoint := String.mk host, Cipher := String.mk cipher,
                  Secret := String.mk secret, Prefix := String.mk pfx }

/-- Modelled from the spec: `parseShadowsocksConfig` on a URL string (§4.1,
§6: `ss://[base64(cipher:secret)|cipher:secret]@host:port[?prefix=...][#label]`,
"also accepts the single-token fully-encoded form
`ss://base64(cipher:secret@host:port?...)`"); shadowsocks.go is not among the
sources.  The fragment is a label and is not used. -/
def parseShadowsocksURL (u : String) : Except GoError ShadowsocksConfig :=
  match parseURL u.toList with
  | none => Except.error (errorsNew "string config is not a valid URL")
  | some url =>
    match url.User with
    | some user => shadowsocksConfigOf (decodeToken user) url.Host url.RawQuery
    | none =>
      match decodeSingleToken url.Host with
      | none => Except.error (errorsNew "failed to decode host string")
      | some decoded =>
        match parseURL (url.Scheme ++ "://".toList ++ decoded) with
        | none => Except.error (errorsNew "failed to parse config part")
        | some inner =>
          match inner.User with
          | none => Except.error (errorsNew "invalid cipher info: no ':' separator")
          | some cipherInfo => shadowsocksConfigOf cipherInfo inner.Host inner.RawQuery

/-- Modelled from the spec: the fields a structured Shadowsocks configuration
may have, `{ "$type": "ss", endpoint, cipher, secret, prefix? }`, "any field
not in this set is a hard error" (§6); shadowsocks.go is not among the
sources. -/
def shadowsocksFields : List String := ["endpoint", "cipher", "secret", "prefix", "$type"]

/-- Modelled from the spec: the string field `key` of a structured
configuration, a schema error when a required field is missing or the field
is not a string (§7: "disallowed/missing/extra field"); shadowsocks.go is not
among the sources. -/
def stringField (fields : List (String × ConfigNode)) (key : String) (required : Bool) :
    Except GoError String :=
  match fields.lookup key with
  | some (ConfigNode.str value) => Except.ok value
  | some _ => Except.error (errorsNew ("invalid config format: " ++ key ++ ": not a string"))
  | none =>
    if required then
      Except.error (errorsNew ("invalid config format: " ++ key ++ ": missing field"))
    else Except.ok ""

/-- Modelled from the spec: `parseShadowsocksConfig` on a structured
configuration, "an explicit, hand-written field-by-field decoder ... that
enumerates permitted fields and rejects the rest" (§9), the error naming the
offending field (§7); shadowsocks.go is not among the sources. -/
def parseShadowsocksConfigMap (fields : List (String × ConfigNode)) :
    Except GoError ShadowsocksConfig :=
  match fields.find? (fun kv => !shadowsocksFields.contains kv.1) with
  | some kv => Except.error (errorsNew ("invalid config format: " ++ kv.1 ++ ": unknown field"))
  | none =>
    match stringField fields "endpoint" true with
    | Except.error err => Except.error err
    | Except.ok endpoint =>
      match stringField fields "cipher" true with
      | Except.error err => Except.error err
      | Except.ok cipher =>
        match stringField fields "secret" true with
        | Except.error err => Except.error err
        | Except.ok secret =>
          match stringField fields "prefix" false with
          | Except.error err => Except.error err
          | Except.ok pfx =>
            Except.ok { Endpoint := endpoint, Cipher := cipher, Secret := secret, Prefix := pfx }

/-- Modelled from the spec: `parseShadowsocksConfig(input)`, "from URL or
structured form" (§4.4); shadowsocks.go is not among the sources. -/
def parseShadowsocksConfig : ConfigNode → Except GoError ShadowsocksConfig
  | ConfigNode.str u => parseShadowsocksURL u
  | ConfigNode.map fields => parseShadowsocksConfigMap fields
  | _ => Except.error (errorsNew "invalid config type")

/-- Modelled from the spec: `parseShadowsocksParams`, which the tests call on
a URL string; validation steps (1) and (2) of §4.4, "decode into
ShadowsocksConfig" and "verify Cipher is in the supported cipher name set,
else fail with an `unsupported cipher` error (a config error, not
ErrUnsupported)"; shadowsocks.go is not among the sources.  The set of
supported cipher names belongs to the cipher-suite collaborator (§6) and is
the parameter `supported`. -/
def parseShadowsocksParams (supported : String → Bool) (node : ConfigNode) :
    Except GoError ShadowsocksConfig :=
  match parseShadowsocksConfig node with
  | Except.error err => Except.error err
  | Except.ok config =>
    if supported config.Cipher then Except.ok config
    else Except.error (errorsNew ("unsupported cipher: " ++ config.Cipher))

/-- Modelled from the spec: "Endpoint must be a syntactically valid host:port"
(§3); shadowsocks.go is not among the sources. -/
def isHostPort (endpoint : List Char) : Bool :=
  match cutLast ':' endpoint with
  | some (host, port) => !host.isEmpty && !port.isEmpty && port.all Char.isDigit
  | none => false

/-- Modelled from the spec: the enum `ConnType`, `enum{Direct, Tunneled}`
(§3); its declaration is not among the sources. -/
inductive ConnType where
  | ConnTypeDirect : ConnType
  | ConnTypeTunneled : ConnType
  deriving DecidableEq, Repr

/-- Modelled from the spec: the endpoint/dialer recipe
`{ FirstHop, ConnType }` (§3), with the Shadowsocks layers that decorate it
(§4.4, step 4); its declaration is not among the sources. -/
structure Dialer where
  FirstHop : String
  ConnType : ConnType
  Layers : List ShadowsocksConfig
  deriving DecidableEq, Repr

instance : Inhabited Dialer := ⟨{ FirstHop := "", ConnType := ConnType.ConnTypeDirect, Layers := [] }⟩

/-- Modelled from the spec: the `Transport` value, "exposing both a
StreamDialer and a PacketListener" (§4.4); its declaration is not among the
sources. -/
structure Transport where
  StreamDialer : Dialer
  PacketListener : Dialer
  deriving DecidableEq, Repr

/-- Modelled from the spec: `parseShadowsocksTransport(ctx, configMap,
streamParse, packetParse)` (§4.4); shadowsocks.go is not among the sources.
Validation order: (1) decode, rejecting unknown fields; (2) verify the
cipher; (3) verify the endpoint is host:port; (4) delegate to the supplied
endpoint parsers and decorate their results, "each annotated ... with
`FirstHop = Endpoint`, `ConnType = Tunneled`".  A failure returns the nil
transport. -/
def parseShadowsocksTransport {Ctx σ : Type} (supported : String → Bool) (ctx : Ctx)
    (config : ConfigNode) (streamParse packetParse : ParseFunc Ctx ConfigNode σ Dialer)
    (s : σ) : (Option Transport × Option GoError) × σ :=
  match parseShadowsocksParams supported config with
  | Except.error err => ((none, some err), s)
  | Except.ok params =>
    if isHostPort params.Endpoint.toList then
      match streamParse ctx (ConfigNode.str params.Endpoint) s with
      | ((_, some err), s1) => ((none, some err), s1)
      | ((se, none), s1) =>
        match packetParse ctx (ConfigNode.str params.Endpoint) s1 with
        | ((_, some err), s2) => ((none, some err), s2)
        | ((pe, none), s2) =>
          ((some
            { StreamDialer :=
                { FirstHop := params.Endpoint, ConnType := ConnType.ConnTypeTunneled,
                  Layers := params :: se.Layers }
              PacketListener :=
                { FirstHop := params.Endpoint, ConnType := ConnType.ConnTypeTunneled,
                  Layers := params :: pe.Layers } },
            none), s2)
    else
      ((none, some (errorsNew ("invalid endpoint: " ++ params.Endpoint))), s)

/-! ## Host names and ports -/

/-- The fragment the tests append to a URL, `#` and a label, when there is one. -/
def fragmentOf : Option String → List Char
  | none => []
  | some label => '#' :: label.toList

/-- The token of the test `Fully Encoded` (line 29) for any fields: the base64
encoding of `cipher:secret@endpoint?prefix=` and the percent-encoded prefix. -/
def fullyEncodedToken (enc : Base64Encoding) (cipher secret endpoint pfx : String) :
    List Char :=
  base64Encode enc (bytesOf (cipher.toList ++ ':' :: secret.toList ++ '@' :: endpoint.toList ++
    "?prefix=".toList ++ percentEncode pfx.toList))

/-- The URL of the test `Fully Encoded` (line 30) for any fields: `ss://`, then
the token, then the fragment. -/
def fullyEncodedURL (enc : Base64Encoding) (cipher secret endpoint pfx : String)
    (label : Option String) : String :=
  String.mk ("ss://".toList ++ fullyEncodedToken enc cipher secret endpoint pfx ++
    fragmentOf label)

/-- The token of the tests `User Info Encoded` and `User Info Legacy Encoded`
(lines 39, 49) for any fields: the base64 encoding of `cipher:secret`. -/
def userInfoToken (enc : Base64Encoding) (cipher secret : String) : List Char :=
  base64Encode enc (bytesOf (cipher.toList ++ ':' :: secret.toList))

/-- The URL of the tests `User Info Encoded` and `User Info Legacy Encoded`
(lines 40, 50) for any fields: `ss://`, then the token, then `@endpoint?prefix=`
and the percent-encoded prefix, then the fragment. -/
def userInfoEncodedURL (enc : Base64Encoding) (cipher secret endpoint pfx : String)
    (label : Option String) : String :=
  String.mk ("ss://".toList ++ userInfoToken enc cipher secret ++
    '@' :: endpoint.toList ++ "?prefix=".toList ++ percentEncode pfx.toList ++
    fragmentOf label)

/-- The set of supported cipher names of the tests: the one cipher they use. -/
def demoSupported (cipher : String) : Bool := cipher == "chacha20-ietf-poly1305"

/-- The endpoint parser of `TestNewShadowsocksTransport` (lines 81-88): it
returns the empty endpoint. -/
def demoEndpoints : ParseFunc Unit ConfigNode Unit Dialer :=
  fun _ _ s => ((default, none), s)

/-! ## The registry of type parsers and the default provider (spec §2, §4.1, §4.2) -/

/-- Modelled from the spec: the discriminator of a node, "the `$type` tag (or
URL scheme) selecting which parser handles a Config Node" (glossary); the
registry's source file is not among the sources. -/
def discriminator : ConfigNode → Option String
  | ConfigNode.map fields =>
    match fields.lookup "$type" with
    | some (ConfigNode.str name) => some name
    | _ => none
  | ConfigNode.str u =>
    match parseURL u.toList with
    | some url => some (String.mk url.Scheme)
    | none => none
  | _ => none

/-- Modelled from the spec: the registry `TypeParser[Output]`, "a generic
mapping from a type discriminator (or URL scheme) to a parsing function"
(§2); its declaration is not among the sources.  The tests make one with
`NewTypeParser` from a function, which then receives the node
`example.com:1234`, a node without discriminator (`shadowsocks_test.go`,
lines 81-88). -/
structure TypeParser (Ctx σ Output : Type) where
  fallbackHandler : ParseFunc Ctx ConfigNode σ Output
  subparsers : List (String × ParseFunc Ctx ConfigNode σ Output)

/-- Modelled from the spec: `NewTypeParser`, the registry with no entry; its
source file is not among the sources. -/
def NewTypeParser {Ctx σ Output : Type} (fallbackHandler : ParseFunc Ctx ConfigNode σ Output) :
    TypeParser Ctx σ Output :=
  { fallbackHandler := fallbackHandler, subparsers := [] }

namespace TypeParser

variable {Ctx σ Output : Type}

/-- Modelled from the spec: `register(discriminator, parseFn)` (§4.2); the
registry's source file is not among the sources.  An entry for a
discriminator that has one already is not looked up, "discriminators are
unique within a registry instance" (§3). -/
def register (p : TypeParser Ctx σ Output) (name : String)
    (parseFn : ParseFunc Ctx ConfigNode σ Output) : TypeParser Ctx σ Output :=
  { p with subparsers := p.subparsers ++ [(name, parseFn)] }

/-- Modelled from the spec: `parse(ctx, configNode)`, which "fails with
ErrUnsupported if no registered parser claims the node's discriminator, else
returns or propagates that parser's own error" (§4.2); the registry's source
file is not among the sources.  A node without discriminator goes to the
function the registry was made from. -/
def Parse [Inhabited Output] (p : TypeParser Ctx σ Output) :
    ParseFunc Ctx ConfigNode σ Output :=
  fun ctx node s =>
    match discriminator node with
    | none => p.fallbackHandler ctx node s
    | some name =>
      match p.subparsers.lookup name with
      | some parseFn => parseFn ctx node s
      | none =>
        ((default, some (fmtErrorfW ("config type " ++ name ++ " is not registered: ")
          GoError.errUnsupported)), s)

end TypeParser

/-- Modelled from the spec: the function a registry without a parser for
undiscriminated nodes is made from, "fails with ErrUnsupported if no
registered parser claims the node" (§4.2); the registry's source file is not
among the sources. -/
def unsupportedHandler {Ctx σ Output : Type} [Inhabited Output] :
    ParseFunc Ctx ConfigNode σ Output :=
  fun _ _ s =>
    ((default, some (fmtErrorfW "config has no type: " GoError.errUnsupported)), s)

/-- Modelled from the spec: the endpoint parser of the default provider on an
address, a bare passthrough: `FirstHop` is the "innermost concrete network
address" (§4.5) and `ConnType` is "`Direct` only for a bare passthrough"
(§3); the provider's source file is not among the sources. -/
def dialEndpoint {Ctx σ : Type} : ParseFunc Ctx ConfigNode σ Dialer :=
  fun _ node s =>
    match node with
    | ConfigNode.str address =>
      if isHostPort address.toList then
        (({ FirstHop := address, ConnType := ConnType.ConnTypeDirect, Layers := [] }, none), s)
      else
        ((default, some (errorsNew ("invalid address: " ++ address))), s)
    | _ => ((default, some (errorsNew "invalid endpoint config")), s)

/-- Modelled from the spec: the fields a first-supported configuration may
have, `{ "$type": "first-supported", options: sequence of Config Node }`
(§6); its source file is not among the sources. -/
def firstSupportedFields : List String := ["options", "$type"]

/-- Modelled from the spec: the helper `mapToAny` at `*FirstSupportedConfig`,
"decode the node into a `FirstSupportedConfig{Options}`; fail with a
`malformed` error if the node does not have that shape" (§4.3), with the schema
`{ "$type": "first-supported", options: sequence of Config Node }` (§6); its
source file is not among the sources. -/
def mapToAnyFirstSupported : MapToAny ConfigNode ConfigNode :=
  fun configMap out =>
    match configMap with
    | ConfigNode.map fields =>
      match fields.find? (fun kv => !firstSupportedFields.contains kv.1) with
      | some kv => (out, some (errorsNew (kv.1 ++ ": unknown field")))
      | none =>
        match fields.lookup "options" with
        | some (ConfigNode.seq items) => ({ Options := items }, none)
        | some _ => (out, some (errorsNew "options: not a sequence"))
        | none => (out, none)
    | _ => (out, some (errorsNew "config is not a map"))

/-- Modelled from the spec: `NewDefaultTransportProvider`, the registry of
transports; the provider's source file is not among the sources.  It has the
Shadowsocks parser under `ss`, the discriminator of the structured form and
the scheme of the URL form (§6), over the endpoint parser of the provider,
and the first-supported combinator under `first-supported`, "recursively
reusing the same combinator and registry for sub-options" (§4.3).  The
number is how deep first-supported lists may nest. -/
def NewDefaultTransportProvider {Ctx σ : Type} (supported : String → Bool) :
    Nat → TypeParser Ctx σ (Option Transport)
  | 0 =>
    ((NewTypeParser unsupportedHandler).register "ss"
      (fun ctx node s =>
        parseShadowsocksTransport supported ctx node dialEndpoint dialEndpoint s)).register
      "first-supported"
      (fun _ _ s => ((none, some (errorsNew "config is nested too deeply")), s))
  | depth + 1 =>
    ((NewTypeParser unsupportedHandler).register "ss"
      (fun ctx node s =>
        parseShadowsocksTransport supported ctx node dialEndpoint dialEndpoint s)).register
      "first-supported"
      (fun ctx node s => parseFirstSupported mapToAnyFirstSupported ctx node
        (NewDefaultTransportProvider supported depth).Parse s)

/-- Modelled from the spec: a valid scheme, the `scheme` of the URL grammar
(§4.1) as RFC 3986 defines it: a letter, then letters, digits, `+`, `-`, `.`;
the URL normalizer is not among the sources. -/
def isScheme : List Char → Bool
  | [] => false
  | c :: cs => c.isAlpha && cs.all (fun x => x.isAlphanum || x == '+' || x == '-' || x == '.')

/-- Modelled from the spec: "a recognized URL shape" (§4.1), a text that
splits into the parts of the URL grammar and has a valid scheme; the URL
normalizer is not among the sources. -/
def isURLShape (cs : List Char) : Bool :=
  match parseURL cs with
  | some url => isScheme url.Scheme
  | none => false

/-- Modelled from the spec: "Strip a leading/trailing double-quote pair if the
whole input is quoted" (§4.1, rule 1); the URL normalizer is not among the
sources. -/
def stripQuotes : List Char → List Char
  | [] => []
  | c :: rest =>
    if c = '"' ∧ rest.getLast? = some '"' then rest.dropLast else c :: rest

/-- Modelled from the spec: `ParseConfigYAML`, the contract
`normalize(input) → Config Node` of §4.1; its source file is not among the
sources.  An input that is a URL once its quotes are stripped is the node of
that URL; any other input goes to the document parser, an external
collaborator (§1) and here the parameter `parseDocument`. -/
def ParseConfigYAML (parseDocument : String → Except GoError ConfigNode) (input : String) :
    Except GoError ConfigNode :=
  if isURLShape (stripQuotes input.toList) then
    Except.ok (ConfigNode.str (String.mk (stripQuotes input.toList)))
  else parseDocument input

/-- The text wrapped in one pair of double quotes. -/
def quoted (u : String) : String := String.mk ('"' :: u.toList ++ ['"'])

/-- A parse function that knows the discriminator `ss` only and returns an
output, not the zero value, also where it reports `ErrUnsupported`. -/
def demoParseNoisy (_ : Bool) (name : String) : String × Option GoError :=
  if name = "ss" then ("shadowsocks", none)
  else ("tried " ++ name, some (fmtErrorfW "config type not registered: "
    GoError.errUnsupported))

/-- The node of `TestRegisterDefaultProviders` (lines 32-36), as the document
parser gives it. -/
def demoShadowsocksNode : ConfigNode :=
  ConfigNode.map [("$type", ConfigNode.str "ss"),
    ("endpoint", ConfigNode.str "example.com:1234"),
    ("cipher", ConfigNode.str "chacha20-ietf-poly1305"),
    ("secret", ConfigNode.str "SECRET")]

/-- A node with a discriminator that no parser is registered for. -/
def demoUnknownNode (name : String) : ConfigNode :=
  ConfigNode.map [("$type", ConfigNode.str name)]

/-- A first-supported node with the given options. -/
def firstSupportedNode (options : List ConfigNode) : ConfigNode :=
  ConfigNode.map [("$type", ConfigNode.str "first-supported"),
    ("options", ConfigNode.seq options)]

/-- The default provider as a function of the context and the node, for
first-supported lists nested at most twice and the ciphers of the tests. -/
def demoProviderParse (ctx : Unit) (node : ConfigNode) : Option Transport × Option GoError :=
  ((NewDefaultTransportProvider demoSupported 2).Parse ctx node ()).1

end Config

/-! ## Theorems -/

namespace Config

section Loop

variable {Ctx Any ConfigMap Output : Type}

/-- The loop passes over a run of options the parse function reports as
unsupported, recording one call for each. -/
theorem rangeOptions_skip (ctx : Ctx) (f : Ctx → Any → Output × Option GoError)
    (xs rest : List Any) (log : List (Ctx × Any))
    (h : ∀ ec ∈ xs, errorsIsErrUnsupported (f ctx ec).2 = true) :
    parseFirstSupported.rangeOptions ctx (recordCalls f) (xs ++ rest) log =
      parseFirstSupported.rangeOptions ctx (recordCalls f) rest
        (log ++ xs.map (fun ec => (ctx, ec))) := by
  induction xs generalizing log with
  | nil => simp
  | cons x xs ih =>
    have hx : errorsIsErrUnsupported (f ctx x).2 = true := h x (List.mem_cons_self x xs)
    have hxs : ∀ ec ∈ xs, errorsIsErrUnsupported (f ctx ec).2 = true :=
      fun ec hec => h ec (List.mem_cons_of_mem x hec)
    simp only [List.cons_append, parseFirstSupported.rangeOptions, recordCalls, hx, if_true,
      List.map_cons]
    have := ih (log ++ [(ctx, x)]) hxs
    simp only [recordCalls, List.append_assoc, List.singleton_append] at this
    exact this

/-- The loop returns at the first option the parse function does not report
as unsupported. -/
theorem rangeOptions_stop (ctx : Ctx) (f : Ctx → Any → Output × Option GoError)
    (y : Any) (ys : List Any) (log : List (Ctx × Any))
    (h : errorsIsErrUnsupported (f ctx y).2 = false) :
    parseFirstSupported.rangeOptions ctx (recordCalls f) (y :: ys) log =
      (some (f ctx y), log ++ [(ctx, y)]) := by
  simp [parseFirstSupported.rangeOptions, recordCalls, h]

/-- What the loop does on a list split at its first option that is not
reported as unsupported. -/
theorem rangeOptions_split (ctx : Ctx) (f : Ctx → Any → Output × Option GoError)
    (xs : List Any) (y : Any) (ys : List Any) (log : List (Ctx × Any))
    (hxs : ∀ ec ∈ xs, errorsIsErrUnsupported (f ctx ec).2 = true)
    (hy : errorsIsErrUnsupported (f ctx y).2 = false) :
    parseFirstSupported.rangeOptions ctx (recordCalls f) (xs ++ y :: ys) log =
      (some (f ctx y), log ++ (xs ++ [y]).map (fun ec => (ctx, ec))) := by
  rw [rangeOptions_skip ctx f xs (y :: ys) log hxs, rangeOptions_stop ctx f y ys _ hy]
  simp

/-- What the loop does on a list all of whose options are reported as
unsupported. -/
theorem rangeOptions_exhausted (ctx : Ctx) (f : Ctx → Any → Output × Option GoError)
    (xs : List Any) (log : List (Ctx × Any))
    (hxs : ∀ ec ∈ xs, errorsIsErrUnsupported (f ctx ec).2 = true) :
    parseFirstSupported.rangeOptions ctx (recordCalls f) xs log =
      (none, log ++ xs.map (fun ec => (ctx, ec))) := by
  have := rangeOptions_skip ctx f xs [] log hxs
  simpa [parseFirstSupported.rangeOptions] using this

/-- A list is its first `k` elements, then the element at index `k`, then the
rest, and the first `k` elements are those at the indices below `k`. -/
theorem split_at_index (opts : List Any) (k : Nat) (eck : Any)
    (hk : opts[k]? = some eck) :
    opts = opts.take k ++ eck :: opts.drop (k + 1) ∧
      ∀ ec ∈ opts.take k, ∃ j, j < k ∧ opts[j]? = some ec := by
  have hlt : k < opts.length := by
    rcases Nat.lt_or_ge k opts.length with h | h
    · exact h
    · rw [List.getElem?_eq_none h] at hk; cases hk
  have hget : opts[k] = eck := by
    rw [List.getElem?_eq_getElem hlt] at hk
    exact Option.some.inj hk
  refine ⟨?_, ?_⟩
  · rw [← hget, ← List.drop_eq_getElem_cons hlt, List.take_append_drop]
  · intro ec hec
    obtain ⟨j, hj, hje⟩ := List.getElem_of_mem hec
    have hjk : j < k := by
      have := hj
      rw [List.length_take] at this
      omega
    refine ⟨j, hjk, ?_⟩
    rw [List.getElem_take] at hje
    rw [List.getElem?_eq_getElem (by omega), hje]

/-- The function on a configuration that decodes to a non-empty list of
options, when the loop returns `r`: it returns `r`. -/
theorem parseFirstSupported_of_loop_some [Inhabited Output] {σ : Type}
    (mapToAny : MapToAny ConfigMap Any) (configMap : ConfigMap)
    (config : FirstSupportedConfig Any) (ctx : Ctx) (parseE : ParseFunc Ctx Any σ Output)
    (s s' : σ) (r : Output × Option GoError)
    (hdecode : mapToAny configMap { Options := [] } = (config, none))
    (hne : config.Options ≠ [])
    (hloop : parseFirstSupported.rangeOptions ctx parseE config.Options s = (some r, s')) :
    parseFirstSupported mapToAny ctx configMap parseE s = (r, s') := by
  have hlen : (config.Options.length == 0) = false := by
    cases h : config.Options with
    | nil => exact absurd h hne
    | cons a l => rfl
  simp [parseFirstSupported, hdecode, hlen, hloop]

/-- The function on a configuration that decodes to a non-empty list of
options, when the loop is exhausted: it makes the final return. -/
theorem parseFirstSupported_of_loop_none [Inhabited Output] {σ : Type}
    (mapToAny : MapToAny ConfigMap Any) (configMap : ConfigMap)
    (config : FirstSupportedConfig Any) (ctx : Ctx) (parseE : ParseFunc Ctx Any σ Output)
    (s s' : σ)
    (hdecode : mapToAny configMap { Options := [] } = (config, none))
    (hne : config.Options ≠ [])
    (hloop : parseFirstSupported.rangeOptions ctx parseE config.Options s = (none, s')) :
    parseFirstSupported mapToAny ctx configMap parseE s =
      ((default, some (fmtErrorfW "no suported option found: " GoError.errUnsupported)),
        s') := by
  have hlen : (config.Options.length == 0) = false := by
    cases h : config.Options with
    | nil => exact absurd h hne
    | cons a l => rfl
  simp [parseFirstSupported, hdecode, hlen, hloop]

/-- The function on a configuration that decodes to an empty list of options
returns the error of line 35. -/
theorem parseFirstSupported_empty_options_aux [Inhabited Output] {σ : Type}
    (mapToAny : MapToAny ConfigMap Any) (configMap : ConfigMap)
    (config : FirstSupportedConfig Any) (ctx : Ctx) (parseE : ParseFunc Ctx Any σ Output)
    (s : σ) (hdecode : mapToAny configMap { Options := [] } = (config, none))
    (hempty : config.Options = []) :
    (parseFirstSupported mapToAny ctx configMap parseE s).1.2 =
      some (GoError.errorString "empty list of options") := by
  simp [parseFirstSupported, hdecode, hempty, errorsNew]

/-- The loop's result tells what the parse function said: a returned pair
carries an error that is not unsupported, and an exhausted range means every
option was reported as unsupported. -/
theorem rangeOptions_result (ctx : Ctx) (f : Ctx → Any → Output × Option GoError)
    (opts : List Any) (log : List (Ctx × Any)) :
    (∃ r log', parseFirstSupported.rangeOptions ctx (recordCalls f) opts log = (some r, log') ∧
        errorsIsErrUnsupported r.2 = false) ∨
      ((∃ log', parseFirstSupported.rangeOptions ctx (recordCalls f) opts log = (none, log')) ∧
        ∀ ec ∈ opts, errorsIsErrUnsupported (f ctx ec).2 = true) := by
  induction opts generalizing log with
  | nil => exact Or.inr ⟨⟨log, rfl⟩, by simp⟩
  | cons x xs ih =>
    cases hx : errorsIsErrUnsupported (f ctx x).2 with
    | false =>
      exact Or.inl ⟨f ctx x, log ++ [(ctx, x)], rangeOptions_stop ctx f x xs log hx, hx⟩
    | true =>
      have hstep : parseFirstSupported.rangeOptions ctx (recordCalls f) (x :: xs) log =
          parseFirstSupported.rangeOptions ctx (recordCalls f) xs (log ++ [(ctx, x)]) := by
        simp [parseFirstSupported.rangeOptions, recordCalls, hx]
      rcases ih (log ++ [(ctx, x)]) with ⟨r, log', h1, h2⟩ | ⟨⟨log', h1⟩, h2⟩
      · exact Or.inl ⟨r, log', by rw [hstep, h1], h2⟩
      · refine Or.inr ⟨⟨log', by rw [hstep, h1]⟩, ?_⟩
        intro ec hec
        rcases List.mem_cons.mp hec with h | h
        · rw [h]; exact hx
        · exact h2 ec h

/-- The pair the loop returns does not depend on the log of earlier calls. -/
theorem rangeOptions_fst_log_irrelevant (ctx : Ctx) (f : Ctx → Any → Output × Option GoError)
    (opts : List Any) (log log' : List (Ctx × Any)) :
    (parseFirstSupported.rangeOptions ctx (recordCalls f) opts log).1 =
      (parseFirstSupported.rangeOptions ctx (recordCalls f) opts log').1 := by
  induction opts generalizing log log' with
  | nil => rfl
  | cons x xs ih =>
    cases hx : errorsIsErrUnsupported (f ctx x).2 with
    | false => rw [rangeOptions_stop ctx f x xs log hx, rangeOptions_stop ctx f x xs log' hx]
    | true =>
      have hstep : ∀ l, parseFirstSupported.rangeOptions ctx (recordCalls f) (x :: xs) l =
          parseFirstSupported.rangeOptions ctx (recordCalls f) xs (l ++ [(ctx, x)]) := by
        intro l
        simp [parseFirstSupported.rangeOptions, recordCalls, hx]
      rw [hstep log, hstep log']
      exact ih _ _

/-- The pair the function returns on a configuration that decodes to a
non-empty list of options: the loop's, or the final return's. -/
theorem parseFirstSupported_fst [Inhabited Output] {σ : Type}
    (mapToAny : MapToAny ConfigMap Any) (configMap : ConfigMap)
    (config : FirstSupportedConfig Any) (ctx : Ctx) (parseE : ParseFunc Ctx Any σ Output)
    (s : σ) (hdecode : mapToAny configMap { Options := [] } = (config, none))
    (hne : config.Options ≠ []) :
    (parseFirstSupported mapToAny ctx configMap parseE s).1 =
      (parseFirstSupported.rangeOptions ctx parseE config.Options s).1.getD
        (default, some (fmtErrorfW "no suported option found: " GoError.errUnsupported)) := by
  rcases hloop : parseFirstSupported.rangeOptions ctx parseE config.Options s with ⟨o, s'⟩
  cases o with
  | none =>
    rw [parseFirstSupported_of_loop_none mapToAny configMap config ctx parseE s s' hdecode hne
      hloop]
    rfl
  | some r =>
    rw [parseFirstSupported_of_loop_some mapToAny configMap config ctx parseE s s' r hdecode hne
      hloop]
    rfl

end Loop

section Claims

variable {Ctx Any ConfigMap Output : Type}

/-- C1: on a configuration that decodes to a list of options in which index
`k` is the least whose parse error does not match `ErrUnsupported` (a nil
error included), `parseFirstSupported` returns exactly the pair of output and
error that `parseE(ctx, Options[k])` returned. -/
theorem parseFirstSupported_returns_first_not_unsupported [Inhabited Output]
    (mapToAny : MapToAny ConfigMap Any) (configMap : ConfigMap)
    (config : FirstSupportedConfig Any) (ctx : Ctx)
    (parseE : Ctx → Any → Output × Option GoError) (log : List (Ctx × Any))
    (k : Nat) (eck : Any)
    (hdecode : mapToAny configMap { Options := [] } = (config, none))
    (hk : config.Options[k]? = some eck)
    (hbefore : ∀ j ec, j < k → config.Options[j]? = some ec →
      errorsIsErrUnsupported (parseE ctx ec).2 = true)
    (hat : errorsIsErrUnsupported (parseE ctx eck).2 = false) :
    (parseFirstSupported mapToAny ctx configMap (recordCalls parseE) log).1 =
      parseE ctx eck := by
  obtain ⟨hsplit, htake⟩ := split_at_index config.Options k eck hk
  have hne : config.Options ≠ [] := by
    intro h
    rw [h] at hk
    simp at hk
  have hxs : ∀ ec ∈ config.Options.take k, errorsIsErrUnsupported (parseE ctx ec).2 = true := by
    intro ec hec
    obtain ⟨j, hj, hje⟩ := htake ec hec
    exact hbefore j ec hj hje
  have hloop := rangeOptions_split ctx parseE (config.Options.take k) eck
    (config.Options.drop (k + 1)) log hxs hat
  rw [← hsplit] at hloop
  rw [parseFirstSupported_of_loop_some mapToAny configMap config ctx (recordCalls parseE) log _ _
    hdecode hne hloop]

/-- C2: on a configuration that decodes to a list of options in which index
`k` is the least whose parse error does not match `ErrUnsupported`, the calls
of `parseE` that `parseFirstSupported` adds to the log are exactly
`(ctx, Options[0])`, ..., `(ctx, Options[k])`, in this order and once each;
no option after index `k` is parsed. -/
theorem parseFirstSupported_calls_up_to_first_not_unsupported [Inhabited Output]
    (mapToAny : MapToAny ConfigMap Any) (configMap : ConfigMap)
    (config : FirstSupportedConfig Any) (ctx : Ctx)
    (parseE : Ctx → Any → Output × Option GoError) (log : List (Ctx × Any))
    (k : Nat) (eck : Any)
    (hdecode : mapToAny configMap { Options := [] } = (config, none))
    (hk : config.Options[k]? = some eck)
    (hbefore : ∀ j ec, j < k → config.Options[j]? = some ec →
      errorsIsErrUnsupported (parseE ctx ec).2 = true)
    (hat : errorsIsErrUnsupported (parseE ctx eck).2 = false) :
    (parseFirstSupported mapToAny ctx configMap (recordCalls parseE) log).2 =
      log ++ (config.Options.take (k + 1)).map (fun ec => (ctx, ec)) := by
  obtain ⟨hsplit, htake⟩ := split_at_index config.Options k eck hk
  have hne : config.Options ≠ [] := by
    intro h
    rw [h] at hk
    simp at hk
  have hxs : ∀ ec ∈ config.Options.take k, errorsIsErrUnsupported (parseE ctx ec).2 = true := by
    intro ec hec
    obtain ⟨j, hj, hje⟩ := htake ec hec
    exact hbefore j ec hj hje
  have hloop := rangeOptions_split ctx parseE (config.Options.take k) eck
    (config.Options.drop (k + 1)) log hxs hat
  rw [← hsplit] at hloop
  rw [parseFirstSupported_of_loop_some mapToAny configMap config ctx (recordCalls parseE) log _ _
    hdecode hne hloop]
  have htk : config.Options.take (k + 1) = config.Options.take k ++ [eck] := by
    rw [List.take_succ, hk]
    rfl
  rw [htk]

/-- C3: on a configuration that decodes to an empty list of options,
`parseFirstSupported` fails with the error "empty list of options", the error
does not match `ErrUnsupported`, and `parseE` is not called (the log of calls
is unchanged). -/
theorem parseFirstSupported_empty_options [Inhabited Output]
    (mapToAny : MapToAny ConfigMap Any) (configMap : ConfigMap)
    (config : FirstSupportedConfig Any) (ctx : Ctx)
    (parseE : Ctx → Any → Output × Option GoError) (log : List (Ctx × Any))
    (hdecode : mapToAny configMap { Options := [] } = (config, none))
    (hempty : config.Options = []) :
    (parseFirstSupported mapToAny ctx configMap (recordCalls parseE) log).1.2 =
        some (GoError.errorString "empty list of options") ∧
      errorsIsErrUnsupported
        (parseFirstSupported mapToAny ctx configMap (recordCalls parseE) log).1.2 = false ∧
      (parseFirstSupported mapToAny ctx configMap (recordCalls parseE) log).2 = log := by
  simp [parseFirstSupported, hdecode, hempty, errorsNew, errorsIsErrUnsupported,
    GoError.isErrUnsupported]

/-- C4: on a configuration that decodes to a non-empty list of options every
one of which `parseE` reports with an error matching `ErrUnsupported`,
`parseFirstSupported` fails with an error that matches `ErrUnsupported`. -/
theorem parseFirstSupported_all_unsupported [Inhabited Output]
    (mapToAny : MapToAny ConfigMap Any) (configMap : ConfigMap)
    (config : FirstSupportedConfig Any) (ctx : Ctx)
    (parseE : Ctx → Any → Output × Option GoError) (log : List (Ctx × Any))
    (hdecode : mapToAny configMap { Options := [] } = (config, none))
    (hne : config.Options ≠ [])
    (hall : ∀ ec ∈ config.Options, errorsIsErrUnsupported (parseE ctx ec).2 = true) :
    (∃ err, (parseFirstSupported mapToAny ctx configMap (recordCalls parseE) log).1.2 =
        some err) ∧
      errorsIsErrUnsupported
        (parseFirstSupported mapToAny ctx configMap (recordCalls parseE) log).1.2 = true := by
  have hloop := rangeOptions_exhausted ctx parseE config.Options log hall
  rw [parseFirstSupported_of_loop_none mapToAny configMap config ctx (recordCalls parseE) log _
    hdecode hne hloop]
  exact ⟨⟨_, rfl⟩, rfl⟩

/-- C5: on a configuration that decodes to a `FirstSupportedConfig`, if
`parseFirstSupported` returns an error matching `ErrUnsupported` then the list
of options is non-empty and `parseE` returned an error matching
`ErrUnsupported` for every option in it. -/
theorem parseFirstSupported_unsupported_only_if_all_unsupported [Inhabited Output]
    (mapToAny : MapToAny ConfigMap Any) (configMap : ConfigMap)
    (config : FirstSupportedConfig Any) (ctx : Ctx)
    (parseE : Ctx → Any → Output × Option GoError) (log : List (Ctx × Any))
    (hdecode : mapToAny configMap { Options := [] } = (config, none))
    (hunsupported : errorsIsErrUnsupported
      (parseFirstSupported mapToAny ctx configMap (recordCalls parseE) log).1.2 = true) :
    config.Options ≠ [] ∧
      ∀ ec ∈ config.Options, errorsIsErrUnsupported (parseE ctx ec).2 = true := by
  have hne : config.Options ≠ [] := by
    intro hempty
    have h3 := parseFirstSupported_empty_options_aux mapToAny configMap config ctx
      (recordCalls parseE) log hdecode hempty
    rw [h3] at hunsupported
    cases hunsupported
  refine ⟨hne, ?_⟩
  rcases rangeOptions_result ctx parseE config.Options log with ⟨r, log', h1, h2⟩ | ⟨_, h2⟩
  · rw [parseFirstSupported_of_loop_some mapToAny configMap config ctx (recordCalls parseE) log
      log' r hdecode hne h1] at hunsupported
    rw [h2] at hunsupported
    cases hunsupported
  · exact h2

/-- C6: for a non-empty list of options `ys` and a list `xs` of options each
of which `parseE` reports with an error matching `ErrUnsupported`,
`parseFirstSupported` on a configuration that decodes to `xs ++ ys` returns the
same pair of output and error as on one that decodes to `ys`. -/
theorem parseFirstSupported_leading_unsupported_ignored [Inhabited Output]
    (mapToAny : MapToAny ConfigMap Any) (configMapXY configMapY : ConfigMap)
    (xs ys : List Any) (ctx : Ctx)
    (parseE : Ctx → Any → Output × Option GoError) (log log' : List (Ctx × Any))
    (hdecodeXY : mapToAny configMapXY { Options := [] } = ({ Options := xs ++ ys }, none))
    (hdecodeY : mapToAny configMapY { Options := [] } = ({ Options := ys }, none))
    (hne : ys ≠ [])
    (hxs : ∀ ec ∈ xs, errorsIsErrUnsupported (parseE ctx ec).2 = true) :
    (parseFirstSupported mapToAny ctx configMapXY (recordCalls parseE) log).1 =
      (parseFirstSupported mapToAny ctx configMapY (recordCalls parseE) log').1 := by
  have hneXY : xs ++ ys ≠ [] := by
    intro h
    exact hne (List.append_eq_nil.mp h).2
  rw [parseFirstSupported_fst mapToAny configMapXY { Options := xs ++ ys } ctx
      (recordCalls parseE) log hdecodeXY hneXY,
    parseFirstSupported_fst mapToAny configMapY { Options := ys } ctx
      (recordCalls parseE) log' hdecodeY hne]
  show (parseFirstSupported.rangeOptions ctx (recordCalls parseE) (xs ++ ys) log).1.getD _ =
    (parseFirstSupported.rangeOptions ctx (recordCalls parseE) ys log').1.getD _
  rw [rangeOptions_skip ctx parseE xs ys log hxs,
    rangeOptions_fst_log_irrelevant ctx parseE ys _ log']

/-- C7: on a configuration map that `mapToAny` rejects with the error `e`,
`parseFirstSupported` fails with the error whose text is "invalid config
format: " followed by the text of `e` and which unwraps to `e`, and `parseE`
is not called (the log of calls is unchanged). -/
theorem parseFirstSupported_invalid_config_format [Inhabited Output]
    (mapToAny : MapToAny ConfigMap Any) (configMap : ConfigMap)
    (config : FirstSupportedConfig Any) (e : GoError) (ctx : Ctx)
    (parseE : Ctx → Any → Output × Option GoError) (log : List (Ctx × Any))
    (hdecode : mapToAny configMap { Options := [] } = (config, some e)) :
    ∃ err, (parseFirstSupported mapToAny ctx configMap (recordCalls parseE) log).1.2 =
        some err ∧
      err.Error = "invalid config format: " ++ e.Error ∧
      err.Unwrap = some e ∧
      (parseFirstSupported mapToAny ctx configMap (recordCalls parseE) log).2 = log := by
  refine ⟨fmtErrorfW "invalid config format: " e, ?_, rfl, rfl, ?_⟩ <;>
    simp [parseFirstSupported, hdecode]

/-- Witness of C1: in `[unknown-x, ss, bad]` the option at index 1 is the
first that is not unsupported. -/
theorem parseFirstSupported_returns_first_not_unsupported_witness :
    (parseFirstSupported demoMapToAny () (some ["unknown-x", "ss", "bad"])
        (recordCalls demoParse) []).1 = demoParse () "ss" :=
  parseFirstSupported_returns_first_not_unsupported demoMapToAny
    (some ["unknown-x", "ss", "bad"]) { Options := ["unknown-x", "ss", "bad"] } () demoParse []
    1 "ss" rfl rfl
    (by
      intro j ec hj hec
      obtain rfl : j = 0 := by omega
      obtain rfl : "unknown-x" = ec := by simpa using hec
      decide)
    (by decide)

/-- Witness of C2: on `[unknown-x, ss, bad]` the calls are those on the first
two options. -/
theorem parseFirstSupported_calls_up_to_first_not_unsupported_witness :
    (parseFirstSupported demoMapToAny () (some ["unknown-x", "ss", "bad"])
        (recordCalls demoParse) []).2 = [((), "unknown-x"), ((), "ss")] :=
  parseFirstSupported_calls_up_to_first_not_unsupported demoMapToAny
    (some ["unknown-x", "ss", "bad"]) { Options := ["unknown-x", "ss", "bad"] } () demoParse []
    1 "ss" rfl rfl
    (by
      intro j ec hj hec
      obtain rfl : j = 0 := by omega
      obtain rfl : "unknown-x" = ec := by simpa using hec
      decide)
    (by decide)

/-- Witness of C3: the configuration with the empty list of options. -/
theorem parseFirstSupported_empty_options_witness :
    (parseFirstSupported demoMapToAny () (some []) (recordCalls demoParse) []).1.2 =
        some (GoError.errorString "empty list of options") ∧
      errorsIsErrUnsupported
        (parseFirstSupported demoMapToAny () (some []) (recordCalls demoParse) []).1.2 =
          false ∧
      (parseFirstSupported demoMapToAny () (some []) (recordCalls demoParse) []).2 = [] :=
  parseFirstSupported_empty_options demoMapToAny (some []) { Options := [] } () demoParse []
    rfl rfl

/-- Witness of C4: both options of `[unknown-x, unknown-y]` are unsupported. -/
theorem parseFirstSupported_all_unsupported_witness :
    (∃ err, (parseFirstSupported demoMapToAny () (some ["unknown-x", "unknown-y"])
        (recordCalls demoParse) []).1.2 = some err) ∧
      errorsIsErrUnsupported
        (parseFirstSupported demoMapToAny () (some ["unknown-x", "unknown-y"])
          (recordCalls demoParse) []).1.2 = true :=
  parseFirstSupported_all_unsupported demoMapToAny (some ["unknown-x", "unknown-y"])
    { Options := ["unknown-x", "unknown-y"] } () demoParse [] rfl (by simp) (by decide)

/-- Witness of C5: `[unknown-x, unknown-y]` resolves to an error matching
`ErrUnsupported`. -/
theorem parseFirstSupported_unsupported_only_if_all_unsupported_witness :
    ["unknown-x", "unknown-y"] ≠ [] ∧
      ∀ ec ∈ ["unknown-x", "unknown-y"], errorsIsErrUnsupported (demoParse () ec).2 = true :=
  parseFirstSupported_unsupported_only_if_all_unsupported demoMapToAny
    (some ["unknown-x", "unknown-y"]) { Options := ["unknown-x", "unknown-y"] } () demoParse []
    rfl (by decide)

/-- Witness of C6: `[unknown-x, ss]` resolves as `[ss]` does. -/
theorem parseFirstSupported_leading_unsupported_ignored_witness :
    (parseFirstSupported demoMapToAny () (some ["unknown-x", "ss"])
        (recordCalls demoParse) []).1 =
      (parseFirstSupported demoMapToAny () (some ["ss"]) (recordCalls demoParse) []).1 :=
  parseFirstSupported_leading_unsupported_ignored demoMapToAny (some ["unknown-x", "ss"])
    (some ["ss"]) ["unknown-x"] ["ss"] () demoParse [] [] rfl rfl (by simp) (by decide)

/-- Witness of C7: the map without options does not decode. -/
theorem parseFirstSupported_invalid_config_format_witness :
    ∃ err, (parseFirstSupported demoMapToAny () none (recordCalls demoParse) []).1.2 =
        some err ∧
      err.Error = "invalid config format: " ++
        (errorsNew "options: field is missing").Error ∧
      err.Unwrap = some (errorsNew "options: field is missing") ∧
      (parseFirstSupported demoMapToAny () none (recordCalls demoParse) []).2 = [] :=
  parseFirstSupported_invalid_config_format demoMapToAny none { Options := [] }
    (errorsNew "options: field is missing") () demoParse [] rfl

end Claims

section Text

/-- Cutting a text gives back its two parts. -/
theorem cutFirst_eq_some (sep : Char) (cs before after : List Char)
    (h : cutFirst sep cs = some (before, after)) : cs = before ++ sep :: after := by
  induction cs generalizing before with
  | nil => simp [cutFirst] at h
  | cons c cs ih =>
    unfold cutFirst at h
    split at h
    · rename_i hc
      cases h
      simp [hc]
    · split at h
      · rename_i b a heq
        cases h
        rw [ih b heq]
        rfl
      · cases h

end Text

section Base64

/-- Decoding skips line breaks: `QUJD` broken over two lines decodes as `ABC`,
in both encodings, and so does `QQ==` with a line break before its padding. -/
theorem base64Decode_lineBreaks :
    base64Decode Base64Encoding.std "QU\r\nJD\n".toList = some [65, 66, 67] ∧
    base64Decode Base64Encoding.urlNoPadding "QU\r\nJD\n".toList = some [65, 66, 67] ∧
    base64Decode Base64Encoding.std "QQ\n==".toList = some [65] := by
  refine ⟨?_, ?_, ?_⟩ <;> decide

end Base64

section Percent

end Percent

section URLs

end URLs

section RoundTrip

end RoundTrip

section ShadowsocksClaims

/-- The errors of `stringField` were made by `errors.New`. -/
theorem stringField_error (fields : List (String × ConfigNode)) (key : String)
    (required : Bool) (err : GoError)
    (h : stringField fields key required = Except.error err) :
    ∃ text, err = GoError.errorString text := by
  simp only [stringField, errorsNew] at h
  repeat' split at h
  all_goals first
    | exact ⟨_, (Except.error.inj h).symm⟩
    | cases h

/-- The errors of the URL and structured decoders were made by `errors.New`. -/
theorem parseShadowsocksConfig_error (config : ConfigNode) (err : GoError)
    (h : parseShadowsocksConfig config = Except.error err) :
    ∃ text, err = GoError.errorString text := by
  cases config with
  | str u =>
    simp only [parseShadowsocksConfig, parseShadowsocksURL, shadowsocksConfigOf, errorsNew] at h
    repeat' split at h
    all_goals first
      | exact ⟨_, (Except.error.inj h).symm⟩
      | cases h
  | map fields =>
    simp only [parseShadowsocksConfig, parseShadowsocksConfigMap, errorsNew] at h
    repeat' split at h
    all_goals first
      | exact ⟨_, (Except.error.inj h).symm⟩
      | (rename_i heq; cases h; exact stringField_error _ _ _ _ heq)
      | cases h
  | int _ => exact ⟨_, (Except.error.inj h).symm⟩
  | bool _ => exact ⟨_, (Except.error.inj h).symm⟩
  | seq _ => exact ⟨_, (Except.error.inj h).symm⟩

/-- The errors of `parseShadowsocksParams` do not match `ErrUnsupported`. -/
theorem parseShadowsocksParams_error (supported : String → Bool) (config : ConfigNode)
    (err : GoError) (h : parseShadowsocksParams supported config = Except.error err) :
    err.isErrUnsupported = false := by
  unfold parseShadowsocksParams at h
  split at h
  · rename_i e heq
    obtain ⟨text, ht⟩ := parseShadowsocksConfig_error config e heq
    cases h
    rw [ht]
    rfl
  · split at h
    · cases h
    · cases h
      rfl

/-- The tests of `TestParseShadowsocksConfig_URL` that expect a configuration
(lines 28-65): the model returns the fields the tests require. -/
theorem parseShadowsocksConfig_tests :
    parseShadowsocksConfig (ConfigNode.str
        "ss://Y2hhY2hhMjAtaWV0Zi1wb2x5MTMwNTpTRUNSRVRAZXhhbXBsZS5jb206MTIzND9wcmVmaXg9SFRUUCUyRjEuMSUyMA#outline-123") =
      Except.ok { Endpoint := "example.com:1234", Cipher := "chacha20-ietf-poly1305",
                  Secret := "SECRET", Prefix := "HTTP/1.1 " } ∧
    parseShadowsocksConfig (ConfigNode.str
        "ss://Y2hhY2hhMjAtaWV0Zi1wb2x5MTMwNTpTRUNSRVQ@example.com:1234?prefix=HTTP%2F1.1%20#outline-123") =
      Except.ok { Endpoint := "example.com:1234", Cipher := "chacha20-ietf-poly1305",
                  Secret := "SECRET", Prefix := "HTTP/1.1 " } ∧
    parseShadowsocksConfig (ConfigNode.str
        "ss://Y2hhY2hhMjAtaWV0Zi1wb2x5MTMwNTpTRUNSRVQ=@example.com:1234?prefix=HTTP%2F1.1%20#outline-123") =
      Except.ok { Endpoint := "example.com:1234", Cipher := "chacha20-ietf-poly1305",
                  Secret := "SECRET", Prefix := "HTTP/1.1 " } ∧
    parseShadowsocksConfig (ConfigNode.str
        "ss://chacha20-ietf-poly1305:SECRET@example.com:1234") =
      Except.ok { Endpoint := "example.com:1234", Cipher := "chacha20-ietf-poly1305",
                  Secret := "SECRET", Prefix := "" } := by
  refine ⟨?_, ?_, ?_, ?_⟩ <;> rfl

/-- The URLs of the tests are those the URL builders give for the tests'
fields. -/
theorem test_urls :
    fullyEncodedURL Base64Encoding.urlNoPadding "chacha20-ietf-poly1305" "SECRET"
        "example.com:1234" "HTTP/1.1 " (some "outline-123") =
      "ss://Y2hhY2hhMjAtaWV0Zi1wb2x5MTMwNTpTRUNSRVRAZXhhbXBsZS5jb206MTIzND9wcmVmaXg9SFRUUCUyRjEuMSUyMA#outline-123" ∧
    userInfoEncodedURL Base64Encoding.urlNoPadding "chacha20-ietf-poly1305" "SECRET"
        "example.com:1234" "HTTP/1.1 " (some "outline-123") =
      "ss://Y2hhY2hhMjAtaWV0Zi1wb2x5MTMwNTpTRUNSRVQ@example.com:1234?prefix=HTTP%2F1.1%20#outline-123" ∧
    userInfoEncodedURL Base64Encoding.std "chacha20-ietf-poly1305" "SECRET"
        "example.com:1234" "HTTP/1.1 " (some "outline-123") =
      "ss://Y2hhY2hhMjAtaWV0Zi1wb2x5MTMwNTpTRUNSRVQ=@example.com:1234?prefix=HTTP%2F1.1%20#outline-123" := by
  refine ⟨?_, ?_, ?_⟩ <;> decide

/-- The tests of `TestParseShadowsocksConfig_URL` that expect an error (lines
67-77): the model fails on both URLs, on the second with the error of an
unsupported cipher. -/
theorem parseShadowsocksParams_tests :
    parseShadowsocksParams demoSupported (ConfigNode.str
        "ss://chacha20-ietf-poly13051234567@example.com:1234") =
      Except.error (errorsNew "invalid cipher info: no ':' separator") ∧
    ∃ cipher, parseShadowsocksParams demoSupported (ConfigNode.str
        "ss://Y2hhY2hhMjAtaWV0Zi1wb2x5MTMwnTpLeTUyN2duU3FEVFB3R0JpQ1RxUnlT@example.com:1234") =
      Except.error (errorsNew ("unsupported cipher: " ++ cipher)) :=
  ⟨by rfl, ⟨_, by rfl⟩⟩

/-- The delimiters of the URL grammar of §4.1 inside a field, on the model of
that grammar.  (1) A cipher `a:b` with secret `c` comes back as cipher `a` with
secret `b:c`.  (2) With standard base64 the token of `chacha20-ietf-poly1305:?`
contains `/`, which ends the authority, and decoding fails.  (3) In the
fully-encoded form the secret `pass/word` ends the authority of the decoded
text, and decoding fails.  (4) The endpoint `example.com:1234/x` comes back as
`example.com:1234`. -/
theorem parseShadowsocksConfig_delimiters :
    parseShadowsocksConfig (ConfigNode.str (userInfoEncodedURL Base64Encoding.urlNoPadding
        "a:b" "c" "example.com:1234" "" none)) ≠
      Except.ok { Endpoint := "example.com:1234", Cipher := "a:b", Secret := "c",
                  Prefix := "" } ∧
    parseShadowsocksConfig (ConfigNode.str (userInfoEncodedURL Base64Encoding.std
        "chacha20-ietf-poly1305" "?" "example.com:1234" "" none)) ≠
      Except.ok { Endpoint := "example.com:1234", Cipher := "chacha20-ietf-poly1305",
                  Secret := "?", Prefix := "" } ∧
    parseShadowsocksConfig (ConfigNode.str (fullyEncodedURL Base64Encoding.urlNoPadding
        "chacha20-ietf-poly1305" "pass/word" "example.com:1234" "" none)) ≠
      Except.ok { Endpoint := "example.com:1234", Cipher := "chacha20-ietf-poly1305",
                  Secret := "pass/word", Prefix := "" } ∧
    parseShadowsocksConfig (ConfigNode.str (userInfoEncodedURL Base64Encoding.urlNoPadding
        "chacha20-ietf-poly1305" "SECRET" "example.com:1234/x" "" none)) ≠
      Except.ok { Endpoint := "example.com:1234/x", Cipher := "chacha20-ietf-poly1305",
                  Secret := "SECRET", Prefix := "" } := by
  have h1 : parseShadowsocksConfig (ConfigNode.str (userInfoEncodedURL
      Base64Encoding.urlNoPadding "a:b" "c" "example.com:1234" "" none)) =
      Except.ok { Endpoint := "example.com:1234", Cipher := "a", Secret := "b:c",
                  Prefix := "" } := by rfl
  have h2 : parseShadowsocksConfig (ConfigNode.str (userInfoEncodedURL Base64Encoding.std
      "chacha20-ietf-poly1305" "?" "example.com:1234" "" none)) =
      Except.error (errorsNew "invalid cipher info: no ':' separator") := by rfl
  have h3 : parseShadowsocksConfig (ConfigNode.str (fullyEncodedURL
      Base64Encoding.urlNoPadding "chacha20-ietf-poly1305" "pass/word" "example.com:1234" ""
      none)) = Except.error (errorsNew "invalid cipher info: no ':' separator") := by rfl
  have h4 : parseShadowsocksConfig (ConfigNode.str (userInfoEncodedURL
      Base64Encoding.urlNoPadding "chacha20-ietf-poly1305" "SECRET" "example.com:1234/x" ""
      none)) =
      Except.ok { Endpoint := "example.com:1234", Cipher := "chacha20-ietf-poly1305",
                  Secret := "SECRET", Prefix := "" } := by rfl
  rw [h1, h2, h3, h4]
  refine ⟨?_, ?_, ?_, ?_⟩
  · intro h
    exact absurd (congrArg ShadowsocksConfig.Cipher (Except.ok.inj h)) (by decide)
  · intro h
    cases h
  · intro h
    cases h
  · intro h
    exact absurd (congrArg ShadowsocksConfig.Endpoint (Except.ok.inj h)) (by decide)

/-- C9: for a configuration that decodes to a Shadowsocks configuration whose
cipher is not in the supported set, `parseShadowsocksTransport` and
`parseShadowsocksParams` fail, with an error that does not match
`ErrUnsupported`; and `parseFirstSupported` on a list of options that starts
with it returns this error and does not go on to the next option. -/
theorem parseShadowsocksTransport_unsupported_cipher {Ctx σ ConfigMap : Type}
    (supported : String → Bool) (ctx : Ctx) (config : ConfigNode) (params : ShadowsocksConfig)
    (streamParse packetParse : ParseFunc Ctx ConfigNode σ Dialer) (s : σ)
    (hconfig : parseShadowsocksConfig config = Except.ok params)
    (hcipher : supported params.Cipher = false) :
    ∃ err, errorsIsErrUnsupported (some err) = false ∧
      parseShadowsocksTransport supported ctx config streamParse packetParse s =
        ((none, some err), s) ∧
      parseShadowsocksParams supported config = Except.error err ∧
      ∀ (mapToAny : MapToAny ConfigMap ConfigNode) (configMap : ConfigMap)
        (rest : List ConfigNode),
        mapToAny configMap { Options := [] } = ({ Options := config :: rest }, none) →
        parseFirstSupported mapToAny ctx configMap
          (fun c ec t => parseShadowsocksTransport supported c ec streamParse packetParse t) s =
          ((none, some err), s) := by
  have hparams : parseShadowsocksParams supported config =
      Except.error (errorsNew ("unsupported cipher: " ++ params.Cipher)) := by
    simp [parseShadowsocksParams, hconfig, hcipher]
  have htransport : parseShadowsocksTransport supported ctx config streamParse packetParse s =
      ((none, some (errorsNew ("unsupported cipher: " ++ params.Cipher))), s) := by
    simp [parseShadowsocksTransport, hparams]
  refine ⟨errorsNew ("unsupported cipher: " ++ params.Cipher), rfl, htransport, hparams, ?_⟩
  intro mapToAny configMap rest hdecode
  apply parseFirstSupported_of_loop_some mapToAny configMap { Options := config :: rest } ctx _
    s s _ hdecode (by simp)
  simp [parseFirstSupported.rangeOptions, htransport, errorsIsErrUnsupported, errorsNew,
    GoError.isErrUnsupported]

/-- Witness of C9: the configuration of the test `Fail on unsupported cipher`
(lines 102-111). -/
theorem parseShadowsocksTransport_unsupported_cipher_witness :
    ∃ err, errorsIsErrUnsupported (some err) = false ∧
      parseShadowsocksTransport demoSupported ()
          (ConfigNode.map [("endpoint", ConfigNode.str "example.com:1234"),
            ("cipher", ConfigNode.str "NOT SUPPORTED"), ("secret", ConfigNode.str "SECRET"),
            ("prefix", ConfigNode.str "outline-123")]) demoEndpoints demoEndpoints () =
        ((none, some err), ()) ∧
      parseShadowsocksParams demoSupported
          (ConfigNode.map [("endpoint", ConfigNode.str "example.com:1234"),
            ("cipher", ConfigNode.str "NOT SUPPORTED"), ("secret", ConfigNode.str "SECRET"),
            ("prefix", ConfigNode.str "outline-123")]) = Except.error err ∧
      ∀ (mapToAny : MapToAny Unit ConfigNode) (configMap : Unit) (rest : List ConfigNode),
        mapToAny configMap { Options := [] } =
          ({ Options := ConfigNode.map [("endpoint", ConfigNode.str "example.com:1234"),
            ("cipher", ConfigNode.str "NOT SUPPORTED"), ("secret", ConfigNode.str "SECRET"),
            ("prefix", ConfigNode.str "outline-123")] :: rest }, none) →
        parseFirstSupported mapToAny () configMap
          (fun c ec t => parseShadowsocksTransport demoSupported c ec demoEndpoints
            demoEndpoints t) () = ((none, some err), ()) :=
  parseShadowsocksTransport_unsupported_cipher demoSupported ()
    (ConfigNode.map [("endpoint", ConfigNode.str "example.com:1234"),
      ("cipher", ConfigNode.str "NOT SUPPORTED"), ("secret", ConfigNode.str "SECRET"),
      ("prefix", ConfigNode.str "outline-123")])
    { Endpoint := "example.com:1234", Cipher := "NOT SUPPORTED", Secret := "SECRET",
      Prefix := "outline-123" }
    demoEndpoints demoEndpoints () (by rfl) (by decide)

/-- C10: a structured Shadowsocks configuration with a key outside
`endpoint`, `cipher`, `secret`, `prefix`, `$type` makes
`parseShadowsocksTransport` fail with an error, whatever its other fields
are, and the endpoint parsers are not called (the state is unchanged). -/
theorem parseShadowsocksTransport_extraneous_field {Ctx σ : Type}
    (supported : String → Bool) (ctx : Ctx) (fields : List (String × ConfigNode))
    (streamParse packetParse : ParseFunc Ctx ConfigNode σ Dialer) (s : σ)
    (key : String) (value : ConfigNode)
    (hfield : (key, value) ∈ fields)
    (hkey : key ∉ ["endpoint", "cipher", "secret", "prefix", "$type"]) :
    ∃ err, parseShadowsocksTransport supported ctx (ConfigNode.map fields) streamParse
        packetParse s = ((none, some err), s) := by
  have hfind : (fields.find? (fun kv => !shadowsocksFields.contains kv.1)).isSome = true := by
    rw [List.find?_isSome]
    refine ⟨(key, value), hfield, ?_⟩
    simpa [shadowsocksFields] using hkey
  obtain ⟨kv, hkv⟩ := Option.isSome_iff_exists.mp hfind
  have hconfig : parseShadowsocksConfigMap fields =
      Except.error (errorsNew ("invalid config format: " ++ kv.1 ++ ": unknown field")) := by
    unfold parseShadowsocksConfigMap
    rw [hkv]
  refine ⟨errorsNew ("invalid config format: " ++ kv.1 ++ ": unknown field"), ?_⟩
  simp only [parseShadowsocksTransport, parseShadowsocksParams, parseShadowsocksConfig, hconfig]

/-- Witness of C10: the configuration of the test `Fail on extraneous field`
(lines 113-123). -/
theorem parseShadowsocksTransport_extraneous_field_witness :
    ∃ err, parseShadowsocksTransport demoSupported ()
        (ConfigNode.map [("endpoint", ConfigNode.str "example.com:1234"),
          ("cipher", ConfigNode.str "chacha20-ietf-poly1305"),
          ("secret", ConfigNode.str "SECRET"), ("prefix", ConfigNode.str "outline-123"),
          ("extra", ConfigNode.str "NOT SUPPORTED")]) demoEndpoints demoEndpoints () =
      ((none, some err), ()) :=
  parseShadowsocksTransport_extraneous_field demoSupported () _ demoEndpoints demoEndpoints ()
    "extra" (ConfigNode.str "NOT SUPPORTED") (by simp) (by decide)

end ShadowsocksClaims

section Provider

/-- The scheme of a URL is the text before the first `:`. -/
theorem parseURL_scheme (cs : List Char) (url : URL) (h : parseURL cs = some url) :
    ∃ rest, cs = url.Scheme ++ ':' :: rest := by
  unfold parseURL at h
  split at h
  · exact absurd h (by simp)
  · rename_i scheme rest hcut
    have hcs := cutFirst_eq_some ':' cs scheme rest hcut
    split at h
    · dsimp only at h
      split at h
      · have hu := Option.some.inj h
        exact ⟨_, by rw [← hu]; exact hcs⟩
      · have hu := Option.some.inj h
        exact ⟨_, by rw [← hu]; exact hcs⟩
    · exact absurd h (by simp)

/-- A text of URL shape starts with a letter. -/
theorem isURLShape_head (cs : List Char) (h : isURLShape cs = true) :
    ∃ c rest, cs = c :: rest ∧ c.isAlpha = true := by
  unfold isURLShape at h
  split at h
  · rename_i url hurl
    obtain ⟨rest, hcs⟩ := parseURL_scheme cs url hurl
    cases hscheme : url.Scheme with
    | nil => simp [hscheme, isScheme] at h
    | cons c tail =>
      rw [hscheme] at h hcs
      refine ⟨c, tail ++ ':' :: rest, hcs, ?_⟩
      simp only [isScheme, Bool.and_eq_true] at h
      exact h.1
  · cases h

/-- Stripping the quotes of a quoted text gives the text. -/
theorem stripQuotes_quoted (u : String) : stripQuotes (quoted u).toList = u.toList := by
  show stripQuotes ('"' :: u.toList ++ ['"']) = u.toList
  simp [stripQuotes]

/-- A text of URL shape has no quotes to strip. -/
theorem stripQuotes_of_isURLShape (cs : List Char) (h : isURLShape cs = true) :
    stripQuotes cs = cs := by
  obtain ⟨c, rest, rfl, hc⟩ := isURLShape_head cs h
  have hne : c ≠ '"' := by
    rintro rfl
    revert hc
    decide
  simp [stripQuotes, hne]

/-- The default provider gives a node with the discriminator `ss` to the
Shadowsocks parser. -/
theorem NewDefaultTransportProvider_ss {Ctx σ : Type} (supported : String → Bool)
    (depth : Nat) (ctx : Ctx) (node : ConfigNode) (s : σ)
    (hss : discriminator node = some "ss") :
    (NewDefaultTransportProvider supported depth).Parse ctx node s =
      parseShadowsocksTransport supported ctx node dialEndpoint dialEndpoint s := by
  cases depth <;>
    simp [NewDefaultTransportProvider, TypeParser.Parse, TypeParser.register, NewTypeParser,
      hss, List.lookup]

/-- The endpoint parser of the default provider on an address. -/
theorem dialEndpoint_address {Ctx σ : Type} (ctx : Ctx) (address : String) (s : σ)
    (h : isHostPort address.toList = true) :
    dialEndpoint ctx (ConfigNode.str address) s =
      (({ FirstHop := address, ConnType := ConnType.ConnTypeDirect, Layers := [] }, none),
        s) := by
  unfold dialEndpoint
  dsimp only
  rw [if_pos h]

/-- C11: for a node with the discriminator `ss` that decodes to a Shadowsocks
configuration with a supported cipher and an endpoint that is host:port, the
default transport provider returns a transport and no error; its stream
dialer and its packet listener have `FirstHop` equal to the endpoint and
`ConnType` equal to `ConnTypeTunneled`. -/
theorem NewDefaultTransportProvider_shadowsocks {Ctx σ : Type} (supported : String → Bool)
    (depth : Nat) (ctx : Ctx) (node : ConfigNode) (params : ShadowsocksConfig) (s : σ)
    (hss : discriminator node = some "ss")
    (hconfig : parseShadowsocksConfig node = Except.ok params)
    (hcipher : supported params.Cipher = true)
    (hendpoint : isHostPort params.Endpoint.toList = true) :
    ∃ transport,
      (NewDefaultTransportProvider supported depth).Parse ctx node s =
        ((some transport, none), s) ∧
      transport.StreamDialer.FirstHop = params.Endpoint ∧
      transport.StreamDialer.ConnType = ConnType.ConnTypeTunneled ∧
      transport.PacketListener.FirstHop = params.Endpoint ∧
      transport.PacketListener.ConnType = ConnType.ConnTypeTunneled := by
  have hparams : parseShadowsocksParams supported node = Except.ok params := by
    simp [parseShadowsocksParams, hconfig, hcipher]
  refine ⟨Transport.mk (Dialer.mk params.Endpoint ConnType.ConnTypeTunneled [params])
    (Dialer.mk params.Endpoint ConnType.ConnTypeTunneled [params]), ?_, rfl, rfl, rfl, rfl⟩
  rw [NewDefaultTransportProvider_ss supported depth ctx node s hss]
  simp only [parseShadowsocksTransport, hparams, hendpoint, if_true,
    dialEndpoint_address ctx params.Endpoint s hendpoint]

/-- Witness of C11: the structured configuration of
`TestRegisterDefaultProviders` and the URL of `TestRegisterParseURL`. -/
theorem NewDefaultTransportProvider_shadowsocks_witness :
    (∃ transport,
      (NewDefaultTransportProvider demoSupported 2).Parse () demoShadowsocksNode () =
        ((some transport, none), ()) ∧
      transport.StreamDialer.FirstHop = "example.com:1234" ∧
      transport.StreamDialer.ConnType = ConnType.ConnTypeTunneled ∧
      transport.PacketListener.FirstHop = "example.com:1234" ∧
      transport.PacketListener.ConnType = ConnType.ConnTypeTunneled) ∧
    ∃ transport,
      (NewDefaultTransportProvider demoSupported 2).Parse ()
        (ConfigNode.str
          "ss://Y2hhY2hhMjAtaWV0Zi1wb2x5MTMwNTpaTXJSMW92ZmRBaEQ@example.com:4321/#My%20Server")
        () = ((some transport, none), ()) ∧
      transport.StreamDialer.FirstHop = "example.com:4321" ∧
      transport.StreamDialer.ConnType = ConnType.ConnTypeTunneled ∧
      transport.PacketListener.FirstHop = "example.com:4321" ∧
      transport.PacketListener.ConnType = ConnType.ConnTypeTunneled :=
  ⟨NewDefaultTransportProvider_shadowsocks demoSupported 2 () demoShadowsocksNode
      { Endpoint := "example.com:1234", Cipher := "chacha20-ietf-poly1305",
        Secret := "SECRET", Prefix := "" } () (by rfl) (by rfl) (by decide) (by decide),
    NewDefaultTransportProvider_shadowsocks demoSupported 2 ()
      (ConfigNode.str
        "ss://Y2hhY2hhMjAtaWV0Zi1wb2x5MTMwNTpaTXJSMW92ZmRBaEQ@example.com:4321/#My%20Server")
      { Endpoint := "example.com:4321", Cipher := "chacha20-ietf-poly1305",
        Secret := "ZMrR1ovfdAhD", Prefix := "" } () (by rfl) (by rfl) (by decide)
      (by decide)⟩

/-- C12: for a string `u` of URL shape, `ParseConfigYAML` on `u` wrapped in
one pair of double quotes returns what it returns on `u`, the node of the URL
`u`: the pair of quotes is stripped. -/
theorem ParseConfigYAML_quoted (parseDocument : String → Except GoError ConfigNode)
    (u : String) (hurl : isURLShape u.toList = true) :
    ParseConfigYAML parseDocument (quoted u) = ParseConfigYAML parseDocument u ∧
      ParseConfigYAML parseDocument u = Except.ok (ConfigNode.str u) := by
  have h1 : ParseConfigYAML parseDocument u = Except.ok (ConfigNode.str u) := by
    unfold ParseConfigYAML
    rw [stripQuotes_of_isURLShape u.toList hurl, hurl]
    rfl
  have h2 : ParseConfigYAML parseDocument (quoted u) = Except.ok (ConfigNode.str u) := by
    unfold ParseConfigYAML
    rw [stripQuotes_quoted u, hurl]
    rfl
  exact ⟨h2.trans h1.symm, h1⟩

/-- Witness of C12: the URL of `TestRegisterParseURL` and, in quotes, of
`TestRegisterParseURLInQuotes`. -/
theorem ParseConfigYAML_quoted_witness :
    ParseConfigYAML (fun _ => Except.error (errorsNew "not a document"))
        "\"ss://Y2hhY2hhMjAtaWV0Zi1wb2x5MTMwNTpaTXJSMW92ZmRBaEQ@example.com:4321/#My%20Server\"" =
      ParseConfigYAML (fun _ => Except.error (errorsNew "not a document"))
        "ss://Y2hhY2hhMjAtaWV0Zi1wb2x5MTMwNTpaTXJSMW92ZmRBaEQ@example.com:4321/#My%20Server" ∧
    ParseConfigYAML (fun _ => Except.error (errorsNew "not a document"))
        "ss://Y2hhY2hhMjAtaWV0Zi1wb2x5MTMwNTpaTXJSMW92ZmRBaEQ@example.com:4321/#My%20Server" =
      Except.ok (ConfigNode.str
        "ss://Y2hhY2hhMjAtaWV0Zi1wb2x5MTMwNTpaTXJSMW92ZmRBaEQ@example.com:4321/#My%20Server") :=
  ParseConfigYAML_quoted (fun _ => Except.error (errorsNew "not a document"))
    "ss://Y2hhY2hhMjAtaWV0Zi1wb2x5MTMwNTpaTXJSMW92ZmRBaEQ@example.com:4321/#My%20Server"
    (by decide)

/-- The tests of `module_test.go` and the first-supported scenario of the
specification (§8) on the model of the default provider: the structured
configuration, the URL, the URL in quotes, and the list
`[unknown-x, ss]`, which resolves via its second option. -/
theorem NewDefaultTransportProvider_tests :
    ((NewDefaultTransportProvider demoSupported 2).Parse () demoShadowsocksNode ()).1 =
      (some (Transport.mk
        (Dialer.mk "example.com:1234" ConnType.ConnTypeTunneled
          [ShadowsocksConfig.mk "example.com:1234" "chacha20-ietf-poly1305" "SECRET" ""])
        (Dialer.mk "example.com:1234" ConnType.ConnTypeTunneled
          [ShadowsocksConfig.mk "example.com:1234" "chacha20-ietf-poly1305" "SECRET" ""])),
        none) ∧
    (ParseConfigYAML (fun _ => Except.error (errorsNew "not a document"))
        "\"ss://Y2hhY2hhMjAtaWV0Zi1wb2x5MTMwNTpaTXJSMW92ZmRBaEQ@example.com:4321/#My%20Server\"").map
        (fun node => ((NewDefaultTransportProvider demoSupported 2).Parse () node ()).1) =
      Except.ok (some (Transport.mk
        (Dialer.mk "example.com:4321" ConnType.ConnTypeTunneled
          [ShadowsocksConfig.mk "example.com:4321" "chacha20-ietf-poly1305" "ZMrR1ovfdAhD" ""])
        (Dialer.mk "example.com:4321" ConnType.ConnTypeTunneled
          [ShadowsocksConfig.mk "example.com:4321" "chacha20-ietf-poly1305" "ZMrR1ovfdAhD" ""])),
        none) ∧
    ((NewDefaultTransportProvider demoSupported 2).Parse ()
        (firstSupportedNode [demoUnknownNode "unknown-x", demoShadowsocksNode]) ()).1 =
      ((NewDefaultTransportProvider demoSupported 2).Parse () demoShadowsocksNode ()).1 := by
  refine ⟨by rfl, by rfl, by rfl⟩

end Provider

section MoreClaims

variable {Ctx Any ConfigMap Output : Type}

/-- The pair the loop returns is that of the first option on which the loop
returns. -/
theorem rangeOptions_fst_findSome (ctx : Ctx) (f : Ctx → Any → Output × Option GoError)
    (opts : List Any) (log : List (Ctx × Any)) :
    (parseFirstSupported.rangeOptions ctx (recordCalls f) opts log).1 =
      opts.findSome? (loopReturn f ctx) := by
  induction opts generalizing log with
  | nil => rfl
  | cons x xs ih =>
    cases hx : errorsIsErrUnsupported (f ctx x).2 with
    | false =>
      rw [rangeOptions_stop ctx f x xs log hx]
      simp [List.findSome?_cons, loopReturn, hx]
    | true =>
      have hstep : parseFirstSupported.rangeOptions ctx (recordCalls f) (x :: xs) log =
          parseFirstSupported.rangeOptions ctx (recordCalls f) xs (log ++ [(ctx, x)]) := by
        simp [parseFirstSupported.rangeOptions, recordCalls, hx]
      rw [hstep, ih]
      simp [List.findSome?_cons, loopReturn, hx]

/-- The pair the function returns on a configuration that decodes to a
non-empty list of options, from the first option on which the loop returns. -/
theorem parseFirstSupported_fst_findSome [Inhabited Output]
    (mapToAny : MapToAny ConfigMap Any) (configMap : ConfigMap)
    (config : FirstSupportedConfig Any) (ctx : Ctx)
    (f : Ctx → Any → Output × Option GoError) (log : List (Ctx × Any))
    (hdecode : mapToAny configMap { Options := [] } = (config, none))
    (hne : config.Options ≠ []) :
    (parseFirstSupported mapToAny ctx configMap (recordCalls f) log).1 =
      (config.Options.findSome? (loopReturn f ctx)).getD
        (default, some (fmtErrorfW "no suported option found: " GoError.errUnsupported)) := by
  rw [parseFirstSupported_fst mapToAny configMap config ctx (recordCalls f) log hdecode hne,
    rangeOptions_fst_findSome]

/-- C13, as stated, fails: in `[bad, ss]` the parse function succeeds on `ss`,
and `parseFirstSupported` returns the error of `bad`, which is not
`ErrUnsupported`, and not the output of `ss`. -/
theorem parseFirstSupported_first_success_counterexample :
    demoParse () "ss" = ("shadowsocks", none) ∧
      (parseFirstSupported demoMapToAny () (some ["bad", "ss"]) (recordCalls demoParse) []).1 =
        ("", some (errorsNew "invalid config")) := by
  constructor <;> rfl

/-- C13, amended: on a configuration that decodes to a list of options, if
`parseE` succeeds on the option at index `k` and reports an error matching
`ErrUnsupported` on every option before it, then `parseFirstSupported`
returns the output of that option, the earliest on which `parseE` succeeds,
with a nil error. -/
theorem parseFirstSupported_first_success [Inhabited Output]
    (mapToAny : MapToAny ConfigMap Any) (configMap : ConfigMap)
    (config : FirstSupportedConfig Any) (ctx : Ctx)
    (parseE : Ctx → Any → Output × Option GoError) (log : List (Ctx × Any))
    (k : Nat) (eck : Any)
    (hdecode : mapToAny configMap { Options := [] } = (config, none))
    (hk : config.Options[k]? = some eck)
    (hbefore : ∀ j ec, j < k → config.Options[j]? = some ec →
      errorsIsErrUnsupported (parseE ctx ec).2 = true)
    (hsuccess : (parseE ctx eck).2 = none) :
    (parseFirstSupported mapToAny ctx configMap (recordCalls parseE) log).1 =
        ((parseE ctx eck).1, none) ∧
      ∀ j ec, j < k → config.Options[j]? = some ec → (parseE ctx ec).2 ≠ none := by
  obtain ⟨hsplit, htake⟩ := split_at_index config.Options k eck hk
  have hne : config.Options ≠ [] := by
    intro h
    rw [h] at hk
    simp at hk
  have hxs : ∀ ec ∈ config.Options.take k, errorsIsErrUnsupported (parseE ctx ec).2 = true := by
    intro ec hec
    obtain ⟨j, hj, hje⟩ := htake ec hec
    exact hbefore j ec hj hje
  have hat : errorsIsErrUnsupported (parseE ctx eck).2 = false := by
    rw [hsuccess]
    rfl
  have hloop := rangeOptions_split ctx parseE (config.Options.take k) eck
    (config.Options.drop (k + 1)) log hxs hat
  rw [← hsplit] at hloop
  refine ⟨?_, ?_⟩
  · rw [parseFirstSupported_of_loop_some mapToAny configMap config ctx (recordCalls parseE) log
      _ _ hdecode hne hloop, ← hsuccess]
  · intro j ec hj hec hnil
    have := hbefore j ec hj hec
    rw [hnil] at this
    cases this

/-- Witness of C13, amended: in `[unknown-x, ss, bad]` the option `ss` at
index 1 follows unsupported options only. -/
theorem parseFirstSupported_first_success_witness :
    (parseFirstSupported demoMapToAny () (some ["unknown-x", "ss", "bad"])
        (recordCalls demoParse) []).1 = ((demoParse () "ss").1, none) ∧
      ∀ j ec, j < 1 → ["unknown-x", "ss", "bad"][j]? = some ec → (demoParse () ec).2 ≠ none :=
  parseFirstSupported_first_success demoMapToAny
    (some ["unknown-x", "ss", "bad"]) { Options := ["unknown-x", "ss", "bad"] } () demoParse []
    1 "ss" rfl rfl
    (by
      intro j ec hj hec
      obtain rfl : j = 0 := by omega
      obtain rfl : "unknown-x" = ec := by simpa using hec
      decide)
    rfl

/-- C14: on the list `[unknown-x, unknown-y]`, all of whose options are
unsupported, the error of `parseFirstSupported` wraps `ErrUnsupported` and
has the text `no suported option found: unsupported operation`, in which the
phrase `no supported option found` does not occur. -/
theorem parseFirstSupported_exhausted_message :
    (parseFirstSupported demoMapToAny () (some ["unknown-x", "unknown-y"])
        (recordCalls demoParse) []).1.2 =
      some (GoError.wrapError "no suported option found: unsupported operation"
        GoError.errUnsupported) ∧
    (GoError.wrapError "no suported option found: unsupported operation"
        GoError.errUnsupported).Error = "no suported option found: unsupported operation" ∧
    ¬ ("no supported option found".toList <:+:
        "no suported option found: unsupported operation".toList) := by
  refine ⟨by rfl, by rfl, by decide⟩

/-- C15: for every configuration map and every `parseE` whose result does not
depend on its context, `parseFirstSupported` returns the same pair of output
and error for any two contexts. -/
theorem parseFirstSupported_ctx_irrelevant [Inhabited Output]
    (mapToAny : MapToAny ConfigMap Any) (configMap : ConfigMap) (ctx1 ctx2 : Ctx)
    (parseE : Ctx → Any → Output × Option GoError) (log1 log2 : List (Ctx × Any))
    (hctx : ∀ c1 c2 ec, parseE c1 ec = parseE c2 ec) :
    (parseFirstSupported mapToAny ctx1 configMap (recordCalls parseE) log1).1 =
      (parseFirstSupported mapToAny ctx2 configMap (recordCalls parseE) log2).1 := by
  rcases hdecode : mapToAny configMap { Options := [] } with ⟨config, oerr⟩
  cases oerr with
  | some e => simp [parseFirstSupported, hdecode]
  | none =>
    by_cases hempty : config.Options = []
    · simp [parseFirstSupported, hdecode, hempty]
    · have hf : loopReturn parseE ctx1 = loopReturn parseE ctx2 := by
        funext ec
        simp [loopReturn, hctx ctx1 ctx2 ec]
      rw [parseFirstSupported_fst_findSome mapToAny configMap config ctx1 parseE log1 hdecode
          hempty,
        parseFirstSupported_fst_findSome mapToAny configMap config ctx2 parseE log2 hdecode
          hempty, hf]

/-- Witness of C15: a context that is cancelled (`true`) and one that is not,
with a parse function that does not look at its context. -/
theorem parseFirstSupported_ctx_irrelevant_witness :
    (parseFirstSupported demoMapToAny true (some ["unknown-x", "ss"])
        (recordCalls demoParseNoisy) []).1 =
      (parseFirstSupported demoMapToAny false (some ["unknown-x", "ss"])
        (recordCalls demoParseNoisy) []).1 :=
  parseFirstSupported_ctx_irrelevant demoMapToAny (some ["unknown-x", "ss"]) true false
    demoParseNoisy [] [] (fun _ _ _ => rfl)

/-- C16: let `parseE` resolve the option `nested`, a first-supported node with
the non-empty list of options `ys`, by calling `parseFirstSupported` with
`parseE` itself.  Then `parseFirstSupported` on `xs ++ [nested] ++ zs` returns
the same pair of output and error as on `xs ++ ys ++ zs`; and when `parseE`
reports every option of `ys` as unsupported, it reports `nested` as
unsupported. -/
theorem parseFirstSupported_nested_flattens [Inhabited Output]
    (mapToAny : MapToAny ConfigMap Any) (configMapNested configMapFlat configMapInner : ConfigMap)
    (nested : Any) (xs ys zs : List Any) (ctx : Ctx)
    (parseE : Ctx → Any → Output × Option GoError) (log log' : List (Ctx × Any))
    (hdecodeNested : mapToAny configMapNested { Options := [] } =
      ({ Options := xs ++ [nested] ++ zs }, none))
    (hdecodeFlat : mapToAny configMapFlat { Options := [] } =
      ({ Options := xs ++ ys ++ zs }, none))
    (hdecodeInner : mapToAny configMapInner { Options := [] } = ({ Options := ys }, none))
    (hne : ys ≠ [])
    (hnested : parseE ctx nested =
      (parseFirstSupported mapToAny ctx configMapInner (recordCalls parseE) []).1) :
    (parseFirstSupported mapToAny ctx configMapNested (recordCalls parseE) log).1 =
        (parseFirstSupported mapToAny ctx configMapFlat (recordCalls parseE) log').1 ∧
      ((∀ ec ∈ ys, errorsIsErrUnsupported (parseE ctx ec).2 = true) →
        errorsIsErrUnsupported (parseE ctx nested).2 = true) := by
  have hinner := parseFirstSupported_fst_findSome mapToAny configMapInner { Options := ys } ctx
    parseE [] hdecodeInner hne
  rw [← hnested] at hinner
  have hkey : loopReturn parseE ctx nested = ys.findSome? (loopReturn parseE ctx) := by
    cases hys : ys.findSome? (loopReturn parseE ctx) with
    | none =>
      rw [show ({ Options := ys } : FirstSupportedConfig Any).Options = ys from rfl, hys]
        at hinner
      simp [loopReturn, hinner, fmtErrorfW, errorsIsErrUnsupported, GoError.isErrUnsupported]
    | some r =>
      rw [show ({ Options := ys } : FirstSupportedConfig Any).Options = ys from rfl, hys]
        at hinner
      obtain ⟨ec, _, hec⟩ := List.exists_of_findSome?_eq_some hys
      have hr : errorsIsErrUnsupported r.2 = false := by
        unfold loopReturn at hec
        split at hec
        · cases hec
        · rename_i hn
          rw [← Option.some.inj hec]
          simpa using hn
      simp [loopReturn, hinner, hr]
  refine ⟨?_, ?_⟩
  · rw [parseFirstSupported_fst_findSome mapToAny configMapNested
        { Options := xs ++ [nested] ++ zs } ctx parseE log hdecodeNested (by simp),
      parseFirstSupported_fst_findSome mapToAny configMapFlat
        { Options := xs ++ ys ++ zs } ctx parseE log' hdecodeFlat (by simp [hne])]
    simp only [List.findSome?_append, List.findSome?_cons, List.findSome?_nil, hkey]
    congr 1
    cases ys.findSome? (loopReturn parseE ctx) <;> simp
  · intro hall
    have hnone : ys.findSome? (loopReturn parseE ctx) = none := by
      rw [List.findSome?_eq_none_iff]
      intro ec hec
      simp [loopReturn, hall ec hec]
    rw [hnone] at hkey
    unfold loopReturn at hkey
    split at hkey
    · assumption
    · cases hkey

/-- Witness of C16: the default provider resolves a first-supported node by
calling `parseFirstSupported` with itself; the nested list
`[unknown-y, ss]` after `unknown-x` and before `unknown-z`. -/
theorem parseFirstSupported_nested_flattens_witness :
    (parseFirstSupported mapToAnyFirstSupported ()
        (firstSupportedNode ([demoUnknownNode "unknown-x"] ++
          [firstSupportedNode [demoUnknownNode "unknown-y", demoShadowsocksNode]] ++
          [demoUnknownNode "unknown-z"]))
        (recordCalls demoProviderParse) []).1 =
      (parseFirstSupported mapToAnyFirstSupported ()
        (firstSupportedNode ([demoUnknownNode "unknown-x"] ++
          [demoUnknownNode "unknown-y", demoShadowsocksNode] ++
          [demoUnknownNode "unknown-z"]))
        (recordCalls demoProviderParse) []).1 ∧
    ((∀ ec ∈ [demoUnknownNode "unknown-y", demoShadowsocksNode],
        errorsIsErrUnsupported (demoProviderParse () ec).2 = true) →
      errorsIsErrUnsupported (demoProviderParse ()
        (firstSupportedNode [demoUnknownNode "unknown-y", demoShadowsocksNode])).2 = true) :=
  parseFirstSupported_nested_flattens mapToAnyFirstSupported
    (firstSupportedNode ([demoUnknownNode "unknown-x"] ++
      [firstSupportedNode [demoUnknownNode "unknown-y", demoShadowsocksNode]] ++
      [demoUnknownNode "unknown-z"]))
    (firstSupportedNode ([demoUnknownNode "unknown-x"] ++
      [demoUnknownNode "unknown-y", demoShadowsocksNode] ++ [demoUnknownNode "unknown-z"]))
    (firstSupportedNode [demoUnknownNode "unknown-y", demoShadowsocksNode])
    (firstSupportedNode [demoUnknownNode "unknown-y", demoShadowsocksNode])
    [demoUnknownNode "unknown-x"] [demoUnknownNode "unknown-y", demoShadowsocksNode]
    [demoUnknownNode "unknown-z"] () demoProviderParse [] [] rfl rfl rfl (by simp) (by rfl)

/-- C17: whatever `mapToAny` returns for the configuration map,
`parseFirstSupported` returns the zero output when the map does not decode,
when the list of options is empty and when `parseE` reports every option as
unsupported; and what it returns is either the zero output with an error, or
the pair that `parseE` returned on one of the options, whose error does not
match `ErrUnsupported`. -/
theorem parseFirstSupported_zero_output [Inhabited Output]
    (mapToAny : MapToAny ConfigMap Any) (configMap : ConfigMap)
    (config : FirstSupportedConfig Any) (oerr : Option GoError) (ctx : Ctx)
    (parseE : Ctx → Any → Output × Option GoError) (log : List (Ctx × Any))
    (hdecode : mapToAny configMap { Options := [] } = (config, oerr)) :
    ((oerr ≠ none ∨ config.Options = [] ∨
        ∀ ec ∈ config.Options, errorsIsErrUnsupported (parseE ctx ec).2 = true) →
      (parseFirstSupported mapToAny ctx configMap (recordCalls parseE) log).1.1 = default) ∧
    (((parseFirstSupported mapToAny ctx configMap (recordCalls parseE) log).1.1 = default ∧
        ∃ err, (parseFirstSupported mapToAny ctx configMap (recordCalls parseE) log).1.2 =
          some err) ∨
      ∃ ec ∈ config.Options,
        (parseFirstSupported mapToAny ctx configMap (recordCalls parseE) log).1 =
          parseE ctx ec ∧
        errorsIsErrUnsupported (parseE ctx ec).2 = false) := by
  cases oerr with
  | some e =>
    have h : (parseFirstSupported mapToAny ctx configMap (recordCalls parseE) log).1 =
        (default, some (fmtErrorfW "invalid config format: " e)) := by
      simp [parseFirstSupported, hdecode]
    rw [h]
    exact ⟨fun _ => rfl, Or.inl ⟨rfl, _, rfl⟩⟩
  | none =>
    by_cases hempty : config.Options = []
    · have h : (parseFirstSupported mapToAny ctx configMap (recordCalls parseE) log).1 =
          (default, some (errorsNew "empty list of options")) := by
        simp [parseFirstSupported, hdecode, hempty]
      rw [h]
      exact ⟨fun _ => rfl, Or.inl ⟨rfl, _, rfl⟩⟩
    · rw [parseFirstSupported_fst_findSome mapToAny configMap config ctx parseE log hdecode
        hempty]
      cases hfs : config.Options.findSome? (loopReturn parseE ctx) with
      | none => exact ⟨fun _ => rfl, Or.inl ⟨rfl, _, rfl⟩⟩
      | some r =>
        obtain ⟨ec, hmem, hec⟩ := List.exists_of_findSome?_eq_some hfs
        have hr : errorsIsErrUnsupported (parseE ctx ec).2 = false ∧ r = parseE ctx ec := by
          unfold loopReturn at hec
          split at hec
          · cases hec
          · rename_i hn
            exact ⟨by simpa using hn, (Option.some.inj hec).symm⟩
        refine ⟨?_, Or.inr ⟨ec, hmem, hr.2, hr.1⟩⟩
        rintro (h | h | h)
        · exact absurd rfl h
        · exact absurd h hempty
        · rw [h ec hmem] at hr
          cases hr.1

/-- Witness of C17: both options of `[unknown-x, unknown-y]` are unsupported
and the parse function returns an output with each error; the output of
`parseFirstSupported` is the zero value, the empty string. -/
theorem parseFirstSupported_zero_output_witness :
    (demoParseNoisy true "unknown-x").1 = "tried unknown-x" ∧
      (parseFirstSupported demoMapToAny true (some ["unknown-x", "unknown-y"])
        (recordCalls demoParseNoisy) []).1.1 = "" :=
  ⟨rfl, (parseFirstSupported_zero_output demoMapToAny (some ["unknown-x", "unknown-y"])
    { Options := ["unknown-x", "unknown-y"] } none true demoParseNoisy [] rfl).1
    (Or.inr (Or.inr (by decide)))⟩

end MoreClaims

end Config
